import Mathlib

/-!
# angular-moment-datetime: date picker and time picker

A shallow embedding of the validation and normalisation logic of
`src/dist/directives/date-picker.js` and `src/source/directives/time-picker.js`.

The directives are written against moment.js. The part of moment they use is
embedded here first (namespace `Moment`), on top of the day and time arithmetic
of ECMAScript `Date` (namespace `ESDate`). Modelling choices of that layer:

* a time value is an integer number of milliseconds. The range limit of `Date`,
  8.64e15 ms either side of the epoch, is modelled where the directives build a
  moment from a year and a month (`Moment.ofYearMonth`): outside it the moment is
  invalid. The arithmetic on an existing moment (setters, `startOf`, `endOf`) is
  modelled inside the range, and the statements about the calendar grid keep the
  year inside it;
* a time zone is a fixed offset from UTC in minutes: a zone with daylight-saving
  transitions is outside the model, and every statement below about a clock
  reading in a zone is a statement about zones of fixed offset;
* a format string is taken in tokenised form.
-/

namespace ESDate

/-! ## Day and time arithmetic of ECMAScript `Date` -/

def msPerDay : Int := 86400000
def msPerHour : Int := 3600000
def msPerMinute : Int := 60000
def msPerSecond : Int := 1000

/-- Day number of a time value: `Day(t) = floor(t / msPerDay)`. -/
def day (t : Int) : Int := t / 86400000

/-- Milliseconds since the start of the day: `TimeWithinDay(t) = t modulo msPerDay`. -/
def timeWithinDay (t : Int) : Int := t % 86400000

/-- Leap-year rule of the Gregorian calendar, `DaysInYear(y) = 366`. -/
def isLeapYear (y : Int) : Bool :=
  (y % 4 == 0 && y % 100 != 0) || y % 400 == 0

def daysInYear (y : Int) : Int := if isLeapYear y then 366 else 365

/-- Day number of the first day of year `y`: `DayFromYear(y)`. -/
def dayFromYear (y : Int) : Int :=
  365 * (y - 1970) + (y - 1969) / 4 - (y - 1901) / 100 + (y - 1601) / 400

/-- The year a day number falls in: the largest `y` with `DayFromYear(y) ≤ d`
(`YearFromTime`), computed from an estimate that is off by at most one. -/
def yearFromDay (d : Int) : Int :=
  let y := 1970 + (400 * d) / 146097
  if d < dayFromYear y then y - 1
  else if dayFromYear (y + 1) ≤ d then y + 1
  else y

/-- `DayWithinYear`, from 0. -/
def dayWithinYear (d : Int) : Int := d - dayFromYear (yearFromDay d)

/-- The extra day a leap year has had by the end of February. -/
def leapShift (leap : Bool) : Int := if leap then 1 else 0

/-- Number of days of the year that precede month `m` (0-based),
the bounds of the `MonthFromTime` table. -/
def daysBeforeMonth (leap : Bool) (m : Int) : Int :=
  if m ≤ 0 then 0
  else if m = 1 then 31
  else if m = 2 then 59 + leapShift leap
  else if m = 3 then 90 + leapShift leap
  else if m = 4 then 120 + leapShift leap
  else if m = 5 then 151 + leapShift leap
  else if m = 6 then 181 + leapShift leap
  else if m = 7 then 212 + leapShift leap
  else if m = 8 then 243 + leapShift leap
  else if m = 9 then 273 + leapShift leap
  else if m = 10 then 304 + leapShift leap
  else if m = 11 then 334 + leapShift leap
  else 365 + leapShift leap

/-- Month (0-based) of a day within the year: the `MonthFromTime` table. -/
def monthFromDayWithinYear (leap : Bool) (n : Int) : Int :=
  if n < 31 then 0
  else if n < 59 + leapShift leap then 1
  else if n < 90 + leapShift leap then 2
  else if n < 120 + leapShift leap then 3
  else if n < 151 + leapShift leap then 4
  else if n < 181 + leapShift leap then 5
  else if n < 212 + leapShift leap then 6
  else if n < 243 + leapShift leap then 7
  else if n < 273 + leapShift leap then 8
  else if n < 304 + leapShift leap then 9
  else if n < 334 + leapShift leap then 10
  else 11

def monthFromDay (d : Int) : Int :=
  monthFromDayWithinYear (isLeapYear (yearFromDay d)) (dayWithinYear d)

/-- Day of the month, from 1: `DateFromTime`. -/
def dateFromDay (d : Int) : Int :=
  dayWithinYear d - daysBeforeMonth (isLeapYear (yearFromDay d)) (monthFromDay d) + 1

/-- Day of the week, 0 = Sunday: `WeekDay(t) = (Day(t) + 4) modulo 7`. -/
def weekDay (d : Int) : Int := (d + 4) % 7

/-- `MakeDay(year, month, date)`: months outside `0..11` carry into the year,
dates outside the month carry into the neighbouring months. -/
def makeDay (year month date : Int) : Int :=
  let ym := year + month / 12
  let mn := month % 12
  dayFromYear ym + daysBeforeMonth (isLeapYear ym) mn + date - 1

/-- `MakeTime(hour, min, sec, ms)`. -/
def makeTime (hour min sec ms : Int) : Int :=
  hour * 3600000 + min * 60000 + sec * 1000 + ms

/-- `MakeDate(day, time)`. -/
def makeDate (d time : Int) : Int := d * 86400000 + time

def yearFromTime (t : Int) : Int := yearFromDay (day t)
def monthFromTime (t : Int) : Int := monthFromDay (day t)
def dateFromTime (t : Int) : Int := dateFromDay (day t)
def hourFromTime (t : Int) : Int := (t / 3600000) % 24
def minFromTime (t : Int) : Int := (t / 60000) % 60
def secFromTime (t : Int) : Int := (t / 1000) % 60
def msFromTime (t : Int) : Int := t % 1000

/-- Number of days of month `m` (0-based) of year `y`. -/
def daysInMonth (y m : Int) : Int :=
  daysBeforeMonth (isLeapYear y) (m + 1) - daysBeforeMonth (isLeapYear y) m

/-- Whether `TimeClip` keeps a time value: it lies within 8.64e15 ms of the
epoch. A `Date` made from a time value outside is `Invalid Date`. -/
def inRange (t : Int) : Bool :=
  decide (-8640000000000000 ≤ t ∧ t ≤ 8640000000000000)

end ESDate


/-! ## The part of moment.js the directives use -/

/-! A JavaScript number that may be `NaN` is an `Option Int`, `none` for `NaN`;
a value that may be `undefined` or `null` is an `Option`, too. -/

/-- A time zone, as moment-timezone resolves a zone name: its offset from UTC
in minutes, east of Greenwich positive. -/
structure Zone where
  utcOffset : Int
  deriving DecidableEq, Repr

/-- A moment object. `mk d offset` holds the wall-clock reading as a time value
(`_d`, the instant shifted by the offset) and the offset in minutes (`_offset`);
`invalid` is a moment whose date is `Invalid Date`. -/
inductive Moment where
  | invalid : Moment
  | mk (d : Int) (offset : Int) : Moment
  deriving DecidableEq, Repr

/-- The units the directives pass to `startOf`, `endOf` and the comparisons. -/
inductive TimeUnit where
  | second : TimeUnit
  | minute : TimeUnit
  | day : TimeUnit
  deriving DecidableEq, Repr

/-- The object argument of `moment#set`: a key that is absent is `none`. -/
structure SetObject where
  year : Option (Option Int)
  month : Option (Option Int)
  date : Option (Option Int)
  hours : Option (Option Int)
  minutes : Option (Option Int)
  seconds : Option (Option Int)
  deriving DecidableEq, Repr

namespace Moment

open ESDate

def isValid : Moment → Bool
  | invalid => false
  | mk _ _ => true

/-- `moment#valueOf`: the instant, `_d - _offset * 60000`. -/
def valueOf : Moment → Option Int
  | invalid => none
  | mk d off => some (d - off * 60000)

def utcOffset : Moment → Option Int
  | invalid => none
  | mk _ off => some off

def clone (m : Moment) : Moment := m

def year : Moment → Option Int
  | invalid => none
  | mk d _ => some (yearFromTime d)

def month : Moment → Option Int
  | invalid => none
  | mk d _ => some (monthFromTime d)

def date : Moment → Option Int
  | invalid => none
  | mk d _ => some (dateFromTime d)

def hours : Moment → Option Int
  | invalid => none
  | mk d _ => some (hourFromTime d)

def minutes : Moment → Option Int
  | invalid => none
  | mk d _ => some (minFromTime d)

def seconds : Moment → Option Int
  | invalid => none
  | mk d _ => some (secFromTime d)

def milliseconds : Moment → Option Int
  | invalid => none
  | mk d _ => some (msFromTime d)

/-- `moment#day`: day of the week, 0 = Sunday. -/
def weekday : Moment → Option Int
  | invalid => none
  | mk d _ => some (weekDay (ESDate.day d))

/-- The helper `daysInMonth(year, month)` of moment. -/
def daysInMonthOf (year month : Int) : Int :=
  let modMonth := month % 12
  let y := year + (month - modMonth) / 12
  if modMonth = 1 then (if isLeapYear y then 29 else 28)
  else 31 - ((modMonth % 7) % 2)

/-- `moment#daysInMonth`. -/
def daysInMonth : Moment → Option Int
  | invalid => none
  | mk d _ => some (daysInMonthOf (yearFromTime d) (monthFromTime d))

/-- `moment()` at the instant `now`, in the browser's zone. -/
def ofInstant (localOffset : Int) (now : Int) : Moment :=
  mk (now + localOffset * 60000) localOffset

/-- `moment#tz(zone)`: same instant, read in the given zone. -/
def tz (z : Zone) : Moment → Moment
  | invalid => invalid
  | mk d off => mk (d + (z.utcOffset - off) * 60000) z.utcOffset

/-- Setting the year: `setUTCFullYear`, where moment keeps 29 February inside
February when the target year is not a leap year. -/
def setYear (v : Option Int) : Moment → Moment
  | invalid => invalid
  | mk d off =>
    match v with
    | none => mk d off
    | some y =>
      if isLeapYear (yearFromTime d) && monthFromTime d == 1 && dateFromTime d == 29 then
        mk (makeDate (makeDay y (monthFromTime d) (daysInMonthOf y (monthFromTime d)))
          (timeWithinDay d)) off
      else
        mk (makeDate (makeDay y (monthFromTime d) (dateFromTime d)) (timeWithinDay d)) off

/-- Setting the month: the day of the month is clamped to the length of the
target month, then `setUTCMonth(month, date)`. A `NaN` month leaves `Invalid Date`. -/
def setMonth (v : Option Int) : Moment → Moment
  | invalid => invalid
  | mk d off =>
    match v with
    | none => invalid
    | some mth =>
      let dayOfMonth := min (dateFromTime d) (daysInMonthOf (yearFromTime d) mth)
      mk (makeDate (makeDay (yearFromTime d) mth dayOfMonth) (timeWithinDay d)) off

/-- Setting the day of the month: `setUTCDate`. -/
def setDate (v : Option Int) : Moment → Moment
  | invalid => invalid
  | mk d off =>
    match v with
    | none => mk d off
    | some dt =>
      mk (makeDate (makeDay (yearFromTime d) (monthFromTime d) dt) (timeWithinDay d)) off

/-- Setting the hour: `setUTCHours`. -/
def setHours (v : Option Int) : Moment → Moment
  | invalid => invalid
  | mk d off =>
    match v with
    | none => mk d off
    | some h =>
      mk (makeDate (ESDate.day d) (makeTime h (minFromTime d) (secFromTime d) (msFromTime d))) off

/-- Setting the minute: `setUTCMinutes`. -/
def setMinutes (v : Option Int) : Moment → Moment
  | invalid => invalid
  | mk d off =>
    match v with
    | none => mk d off
    | some mi =>
      mk (makeDate (ESDate.day d) (makeTime (hourFromTime d) mi (secFromTime d) (msFromTime d))) off

/-- Setting the second: `setUTCSeconds`. -/
def setSeconds (v : Option Int) : Moment → Moment
  | invalid => invalid
  | mk d off =>
    match v with
    | none => mk d off
    | some s =>
      mk (makeDate (ESDate.day d) (makeTime (hourFromTime d) (minFromTime d) s (msFromTime d))) off

/-- Applies a setter when the key is present in the object. -/
def applyUnit (f : Option Int → Moment → Moment) (v : Option (Option Int)) (m : Moment) : Moment :=
  match v with
  | none => m
  | some x => f x m

/-- `moment#set(object)`: the keys are applied in moment's priority order,
year, month, date, hours, minutes, seconds, whatever their order in the object. -/
def set (u : SetObject) (m : Moment) : Moment :=
  applyUnit setSeconds u.seconds
    (applyUnit setMinutes u.minutes
      (applyUnit setHours u.hours
        (applyUnit setDate u.date
          (applyUnit setMonth u.month
            (applyUnit setYear u.year m)))))

/-- `moment#startOf(unit)`. -/
def startOf (u : TimeUnit) : Moment → Moment
  | invalid => invalid
  | mk d off =>
    match u with
    | TimeUnit.day =>
      mk (makeDate (makeDay (yearFromTime d) (monthFromTime d) (dateFromTime d)) 0) off
    | TimeUnit.minute => mk (d - d % 60000) off
    | TimeUnit.second => mk (d - d % 1000) off

/-- `moment#endOf(unit)`. -/
def endOf (u : TimeUnit) : Moment → Moment
  | invalid => invalid
  | mk d off =>
    match u with
    | TimeUnit.day =>
      mk (makeDate (makeDay (yearFromTime d) (monthFromTime d) (dateFromTime d + 1)) 0 - 1) off
    | TimeUnit.minute => mk (d + (60000 - d % 60000 - 1)) off
    | TimeUnit.second => mk (d + (1000 - d % 1000 - 1)) off

/-- `moment#isAfter(input, unit)`: the input lies before the start of this
moment's unit. False when either side is invalid. -/
def isAfter (self input : Moment) (u : TimeUnit) : Bool :=
  match input.valueOf, (self.clone.startOf u).valueOf with
  | some inputMs, some start => decide (inputMs < start)
  | _, _ => false

/-- `moment#isBefore(input, unit)`: the input lies after the end of this
moment's unit. -/
def isBefore (self input : Moment) (u : TimeUnit) : Bool :=
  match input.valueOf, (self.clone.endOf u).valueOf with
  | some inputMs, some stop => decide (stop < inputMs)
  | _, _ => false

/-- `moment#isSame(input, unit)`: the input lies within this moment's unit. -/
def isSame (self input : Moment) (u : TimeUnit) : Bool :=
  match input.valueOf, (self.clone.startOf u).valueOf, (self.clone.endOf u).valueOf with
  | some inputMs, some start, some stop => decide (start ≤ inputMs) && decide (inputMs ≤ stop)
  | _, _, _ => false

def isSameOrAfter (self input : Moment) (u : TimeUnit) : Bool :=
  self.isSame input u || self.isAfter input u

def isSameOrBefore (self input : Moment) (u : TimeUnit) : Bool :=
  self.isSame input u || self.isBefore input u

/-- `moment` of an object with a `year` and a `month`: midnight of the first
day of the month in the browser's zone. A month outside `0..11` overflows and
gives an invalid moment, and so does an instant outside the range of `Date`
(`new Date(year, month, 1)` is then `Invalid Date`). -/
def ofYearMonth (localOffset : Int) (year month : Int) : Moment :=
  if 0 ≤ month ∧ month ≤ 11 then
    if inRange (makeDate (makeDay year month 1) 0 - localOffset * 60000) then
      mk (makeDate (makeDay year month 1) 0) localOffset
    else invalid
  else invalid

end Moment

/-! ### Strict parsing and formatting

A format is its list of tokens: `M/D/YYYY` is `M`, `/`, `D`, `/`, `YYYY`.
In strict mode every token has to match where the previous one stopped (text
skipped to find a match, a token without a match, or text left over each make
the result invalid), so a parse is a left-to-right run of the tokens. -/

/-- Format tokens of the date and time formats. -/
inductive Token where
  | M : Token
  | MM : Token
  | D : Token
  | DD : Token
  | YYYY : Token
  | h : Token
  | hh : Token
  | mm : Token
  | ss : Token
  | a : Token
  | lit (c : Char) : Token
  deriving DecidableEq, Repr

/-- The fields collected while parsing: the entries of moment's `_a` array,
the meridiem when one was read, and the `bigHour` and `empty` parsing flags. -/
structure ParseConfig where
  year : Option Int
  month : Option Int
  date : Option Int
  hour : Option Int
  minute : Option Int
  second : Option Int
  isPm : Option Bool
  bigHour : Bool
  empty : Bool
  deriving DecidableEq, Repr

namespace Moment

open ESDate

def digitValue (c : Char) : Int := (c.toNat : Int) - 48

/-- `toInt` of a run of digits. -/
def readNumber (cs : List Char) : Int :=
  cs.foldl (fun n c => n * 10 + digitValue c) 0

/-- The regular expression `\d\d?` at the head of the input: the number read
and the rest of the input. -/
def match1to2 : List Char → Option (Int × List Char)
  | c1 :: c2 :: rest =>
    if c1.isDigit then
      if c2.isDigit then some (readNumber [c1, c2], rest)
      else some (readNumber [c1], c2 :: rest)
    else none
  | [c1] => if c1.isDigit then some (readNumber [c1], []) else none
  | [] => none

/-- The regular expression `\d\d` at the head of the input. -/
def match2 : List Char → Option (Int × List Char)
  | c1 :: c2 :: rest =>
    if c1.isDigit && c2.isDigit then some (readNumber [c1, c2], rest) else none
  | _ => none

/-- The regular expression `\d\d\d\d` at the head of the input. -/
def match4 : List Char → Option (Int × List Char)
  | c1 :: c2 :: c3 :: c4 :: rest =>
    if c1.isDigit && c2.isDigit && c3.isDigit && c4.isDigit then
      some (readNumber [c1, c2, c3, c4], rest)
    else none
  | _ => none

/-- Drops the first character when it satisfies `p`: an optional character of
a regular expression. -/
def dropIf (p : Char → Bool) : List Char → List Char
  | c :: rest => if p c then rest else c :: rest
  | [] => []

/-- The meridiem expression `[ap]\.?m?\.?`, case-insensitive, at the head of
the input: whether it reads as pm (first letter `p`), and the rest. -/
def matchMeridiem : List Char → Option (Bool × List Char)
  | c :: rest =>
    if c.toLower == 'a' || c.toLower == 'p' then
      some (c.toLower == 'p',
        dropIf (fun x => x == '.') (dropIf (fun x => x.toLower == 'm')
          (dropIf (fun x => x == '.') rest)))
    else none
  | [] => none

/-- One token of a strict parse: the updated fields and the rest of the input,
or `none` when the token does not match at the head of the input. -/
def parseToken (tok : Token) (cfg : ParseConfig) (input : List Char) :
    Option (ParseConfig × List Char) :=
  match tok with
  | Token.M => (match1to2 input).map
      (fun r => ({ cfg with month := some (r.1 - 1), empty := false }, r.2))
  | Token.MM => (match2 input).map
      (fun r => ({ cfg with month := some (r.1 - 1), empty := false }, r.2))
  | Token.D => (match1to2 input).map
      (fun r => ({ cfg with date := some r.1, empty := false }, r.2))
  | Token.DD => (match2 input).map
      (fun r => ({ cfg with date := some r.1, empty := false }, r.2))
  | Token.YYYY => (match4 input).map
      (fun r => ({ cfg with year := some r.1, empty := false }, r.2))
  | Token.h => (match1to2 input).map
      (fun r => ({ cfg with hour := some r.1, bigHour := true, empty := false }, r.2))
  | Token.hh => (match2 input).map
      (fun r => ({ cfg with hour := some r.1, bigHour := true, empty := false }, r.2))
  | Token.mm => (match2 input).map
      (fun r => ({ cfg with minute := some r.1, empty := false }, r.2))
  | Token.ss => (match2 input).map
      (fun r => ({ cfg with second := some r.1, empty := false }, r.2))
  | Token.a => (matchMeridiem input).map
      (fun r => ({ cfg with isPm := some r.1, empty := false }, r.2))
  | Token.lit c =>
    match input with
    | x :: rest => if x == c then some (cfg, rest) else none
    | [] => none

/-- The tokens in order; the whole input has to be consumed. -/
def parseTokens : List Token → ParseConfig → List Char → Option ParseConfig
  | [], cfg, input => if input.isEmpty then some cfg else none
  | tok :: toks, cfg, input =>
    match parseToken tok cfg input with
    | none => none
    | some (cfg1, rest) => parseTokens toks cfg1 rest

/-- `meridiemFixWrap`: a 12-hour reading and its meridiem as an hour of the day. -/
def meridiemFix (hour : Option Int) (isPm : Option Bool) : Option Int :=
  match hour, isPm with
  | some hr, some true => if hr < 12 then some (hr + 12) else some hr
  | some hr, some false => if hr = 12 then some 0 else some hr
  | hr, _ => hr

/-- `moment(str, format, true)` in the browser's zone, at the instant `now`.
Leading date fields that the format does not name default to today's, the
other missing fields to the first day and to midnight; a field out of range
(`checkOverflow`) and a 12-hour token outside `1..12` make the result invalid. -/
def parseStrict (fmt : List Token) (localOffset now : Int) (str : String) : Moment :=
  match parseTokens fmt ⟨none, none, none, none, none, none, none, false, true⟩ str.data with
  | none => invalid
  | some cfg =>
    let today := now + localOffset * 60000
    let bigHourLeft : Bool :=
      cfg.bigHour && !(match cfg.hour with
        | some hr => decide (hr ≤ 12) && decide (0 < hr)
        | none => false)
    let hour := (meridiemFix cfg.hour cfg.isPm).getD 0
    let year := cfg.year.getD (yearFromTime today)
    let month := cfg.month.getD (if cfg.year.isNone then monthFromTime today else 0)
    let date := cfg.date.getD
      (if cfg.year.isNone && cfg.month.isNone then dateFromTime today else 1)
    let minute := cfg.minute.getD 0
    let second := cfg.second.getD 0
    if cfg.empty || bigHourLeft then invalid
    else if month < 0 ∨ 11 < month then invalid
    else if date < 1 ∨ daysInMonthOf year month < date then invalid
    else if hour < 0 ∨ 23 < hour then invalid
    else if minute < 0 ∨ 59 < minute then invalid
    else if second < 0 ∨ 59 < second then invalid
    else mk (makeDate (makeDay year month date) (makeTime hour minute second 0)) localOffset

/-- `zeroFill(number, targetLength)`. -/
def zeroFill (n : Int) (targetLength : Nat) : String :=
  let absNumber := Nat.repr n.natAbs
  (if 0 ≤ n then "" else "-") ++
    String.mk (List.replicate (targetLength - absNumber.length) '0') ++ absNumber

/-- The text of one token for the wall-clock reading `d`. -/
def formatToken (d : Int) : Token → String
  | Token.M => zeroFill (monthFromTime d + 1) 1
  | Token.MM => zeroFill (monthFromTime d + 1) 2
  | Token.D => zeroFill (dateFromTime d) 1
  | Token.DD => zeroFill (dateFromTime d) 2
  | Token.YYYY => zeroFill (yearFromTime d) 4
  | Token.h => zeroFill (if hourFromTime d % 12 = 0 then 12 else hourFromTime d % 12) 1
  | Token.hh => zeroFill (if hourFromTime d % 12 = 0 then 12 else hourFromTime d % 12) 2
  | Token.mm => zeroFill (minFromTime d) 2
  | Token.ss => zeroFill (secFromTime d) 2
  | Token.a => if hourFromTime d < 12 then "am" else "pm"
  | Token.lit c => String.singleton c

/-- `moment#format(format)`. -/
def format (fmt : List Token) : Moment → String
  | invalid => "Invalid date"
  | mk d _ => String.join (fmt.map (formatToken d))

/-- `moment#format("MMMM")`: the English month name. -/
def monthName : Moment → String
  | invalid => "Invalid date"
  | mk d _ =>
    ["January", "February", "March", "April", "May", "June", "July", "August",
      "September", "October", "November", "December"].getD (monthFromTime d).toNat ""

end Moment

/-! ## The date picker, `src/dist/directives/date-picker.js` -/

namespace DatePicker

/-- The format `M/D/YYYY`, `defaultFormat`. -/
def defaultFormat : List Token :=
  [Token.M, Token.lit '/', Token.D, Token.lit '/', Token.YYYY]

/-- What a link function reads from its surroundings and never writes: the
browser's zone, the zone `moment.tz.guess()` reports, the module variable
`firstDayOfWeek`, and `dateFormat`. -/
structure Env where
  localOffset : Int
  guess : Option Zone
  firstDayOfWeek : Int
  dateFormat : List Token
  deriving Repr

/-- An entry of `scope.days`. The source stores `disabled` twice, as
`disabled` and as `class.disabled`, always the same value. -/
structure DayCell where
  number : Int
  disabled : Bool
  today : Bool
  selected : Bool
  deriving DecidableEq, Repr

/-- The directive's scope. -/
structure Scope where
  model : Option Moment
  timezone : Option Zone
  minDate : Option Moment
  maxDate : Option Moment
  dayNow : Option Int
  monthNow : Option Int
  yearNow : Option Int
  days : List DayCell
  filler : List Int
  year : Int
  month : Int
  monthName : String
  prevYear : Int
  nextYear : Int
  prevMonth : Int
  nextMonth : Int
  deriving DecidableEq, Repr

/-- The validity keys the directive sets on the model controller. -/
structure Validity where
  date : Bool
  minDate : Bool
  maxDate : Bool
  deriving DecidableEq, Repr

/-- The result of `validateMinMax`. -/
structure MinMaxValid where
  maxIsValid : Bool
  minIsValid : Bool
  isValid : Bool
  deriving DecidableEq, Repr

/-- The state of one link function: its scope, its private `localMoment`, and
the validity it has reported. -/
structure Link where
  scope : Scope
  localMoment : Moment
  validity : Validity
  deriving DecidableEq, Repr

/-- `scope.timezone || moment.tz.guess()`. -/
def getTimezone (env : Env) (sc : Scope) : Option Zone :=
  match sc.timezone with
  | some z => some z
  | none => env.guess

/-- `timezone ? moment().tz(timezone) : moment()`, read at the instant `now`. -/
def createNow (env : Env) (sc : Scope) (now : Int) : Moment :=
  match getTimezone env sc with
  | some z => (Moment.ofInstant env.localOffset now).tz z
  | none => Moment.ofInstant env.localOffset now

def createLocalMoment (env : Env) (sc : Scope) (now : Int) : Moment :=
  match sc.model with
  | some m => m.clone.startOf TimeUnit.day
  | none => (createNow env sc now).startOf TimeUnit.day

def defineNow (env : Env) (sc : Scope) (now : Int) : Scope :=
  let n := createNow env sc now
  { sc with dayNow := n.date, monthNow := n.month, yearNow := n.year }

def isToday (sc : Scope) (year month day : Int) : Bool :=
  sc.dayNow == some day && sc.monthNow == some month && sc.yearNow == some year

def getMinDate (sc : Scope) : Option Moment :=
  match sc.minDate with
  | some m => some m.clone
  | none => none

def getMaxDate (sc : Scope) : Option Moment :=
  match sc.maxDate with
  | some m => some m.clone
  | none => none

def validateMin (currentDate minDate : Option Moment) : Bool :=
  match currentDate, minDate with
  | some c, some m =>
    if !c.isValid || !m.isValid then true
    else c.isSameOrAfter m TimeUnit.second
  | _, _ => true

def validateMax (currentDate maxDate : Option Moment) : Bool :=
  match currentDate, maxDate with
  | some c, some m =>
    if !c.isValid || !m.isValid then true
    else c.isSameOrBefore m TimeUnit.second
  | _, _ => true

def validateMinMax (sc : Scope) (currentDate : Option Moment) : MinMaxValid :=
  let minDate := getMinDate sc
  let maxDate := getMaxDate sc
  let minIsValid := if minDate.isSome then validateMin currentDate minDate else true
  let maxIsValid := if maxDate.isSome then validateMax currentDate maxDate else true
  ⟨maxIsValid, minIsValid, maxIsValid && minIsValid⟩

def updateValidity (st : Link) (dateIsValid : Bool) (minMaxValid : MinMaxValid) : Link :=
  { st with validity := ⟨dateIsValid, minMaxValid.minIsValid, minMaxValid.maxIsValid⟩ }

/-- The parser the directive puts first in `$parsers`: the state after the
pass and the value returned. `now` is the instant of the call. -/
def momentParser (env : Env) (now : Int) (st : Link) (str : String) : Link × Moment :=
  let parsedMoment := Moment.parseStrict env.dateFormat env.localOffset now str
  let minMaxValid := validateMinMax st.scope (some parsedMoment)
  let isValid := parsedMoment.isValid && minMaxValid.isValid
  let st1 := updateValidity st (str == "" || parsedMoment.isValid) minMaxValid
  let st2 :=
    if isValid then
      { st1 with localMoment :=
          (st1.localMoment.set
            ⟨some parsedMoment.year, some parsedMoment.month, some parsedMoment.date,
              none, none, none⟩).clone }
    else st1
  (st2, st2.localMoment)

/-- The formatter the directive adds to `$formatters`: the state after the
pass and the view string. -/
def momentFormatter (env : Env) (st : Link) (modelMoment : Option Moment) : Link × String :=
  match modelMoment with
  | none => (st, "")
  | some mm =>
    let minMaxValid := validateMinMax st.scope (some mm)
    let dateIsValid := mm.isValid
    let st1 := updateValidity st (modelMoment.isNone || dateIsValid) minMaxValid
    let st2 :=
      if dateIsValid then
        { st1 with localMoment :=
            (st1.localMoment.set
              ⟨some mm.year, some mm.month, some mm.date,
                some mm.hours, some mm.minutes, some mm.seconds⟩).clone }
      else st1
    (st2, st2.localMoment.format env.dateFormat)

/-- Adjust for first day of week setting. `NaN` in, `NaN` out. -/
def getFillerCount (env : Env) (weekDayOfFirstDayOfMonth : Option Int) : Option Int :=
  match weekDayOfFirstDayOfMonth with
  | none => none
  | some w =>
    let diff := w - env.firstDayOfWeek
    some (if diff < 0 then 7 + diff else diff)

/-- The body of the day loop of `buildMonth` for day `i`; `now` is the instant
at which this iteration calls `moment()`. -/
def buildDay (env : Env) (sc : Scope) (timezone : Option Zone) (year month : Int)
    (now : Int) (i : Int) : DayCell :=
  let day0 := Moment.ofInstant env.localOffset now
  let day1 := match timezone with
    | some z => day0.tz z
    | none => day0
  let day := day1.set ⟨some (some year), some (some month), some (some i), none, none, none⟩
  let max := match getMaxDate sc with
    | some m => some (m.endOf TimeUnit.day)
    | none => none
  let min := match getMinDate sc with
    | some m => some (m.startOf TimeUnit.day)
    | none => none
  let disabled := !validateMax (some day) max || !validateMin (some day) min
  let selected := match sc.model with
    | some m => m.isSame day TimeUnit.day
    | none => false
  ⟨i, disabled, isToday sc year month i, selected⟩

/-- Build a month of days based on the date passed in. `clock i` is the
instant at which the iteration for day `i` reads the time. -/
def buildMonth (env : Env) (clock : Int → Int) (sc : Scope) (year month : Int) : Scope :=
  let m := Moment.ofYearMonth env.localOffset year month
  let timezone := getTimezone env sc
  let daysInMonth := m.daysInMonth
  let days := match daysInMonth with
    | some n =>
      (List.range n.toNat).map
        (fun (j : Nat) =>
          buildDay env sc timezone year month (clock ((j : Int) + 1)) ((j : Int) + 1))
    | none => []
  let filler := match getFillerCount env m.weekday with
    | some fillers => (List.range fillers.toNat).map (fun (k : Nat) => (k : Int))
    | none => []
  { sc with
    days := days, filler := filler, year := year, month := month,
    monthName := m.monthName,
    prevYear := if month - 1 < 0 then year - 1 else year,
    nextYear := if month + 1 > 11 then year + 1 else year,
    prevMonth := if month - 1 < 0 then 11 else month - 1,
    nextMonth := if month + 1 > 11 then 0 else month + 1 }

/-! ### Objects and references

`updateMinMaxTimezone` is about which object gets written, so here the two
bounds are references into a store of moment objects: `clone` allocates a new
object, `tz` writes to the object it is called on. -/

/-- The moment objects alive in the page; a reference is an index. -/
abbrev Store := List Moment

/-- The scope's `minDate` and `maxDate` as references. -/
structure BoundRefs where
  minDate : Option Nat
  maxDate : Option Nat
  deriving DecidableEq, Repr

/-- The object behind a reference. -/
def deref (s : Store) (r : Nat) : Moment := s.getD r Moment.invalid

/-- `r.clone()`: a new object with the contents of `r`; returns its reference. -/
def cloneRef (s : Store) (r : Nat) : Store × Nat := (s ++ [deref s r], s.length)

/-- `r.tz(zone)`: writes to the object `r` and returns `r`. -/
def tzRef (s : Store) (r : Nat) (z : Zone) : Store × Nat :=
  (s.set r ((deref s r).tz z), r)

/-- One of the two statements of `updateMinMaxTimezone`,
`if (bound && tz) bound = bound.clone().tz(tz)`: the store and the bound after it. -/
def convertBound (tz : Option Zone) (s : Store) (bound : Option Nat) : Store × Option Nat :=
  match bound, tz with
  | some r, some z => ((tzRef (cloneRef s r).1 (cloneRef s r).2 z).1,
      some (tzRef (cloneRef s r).1 (cloneRef s r).2 z).2)
  | _, _ => (s, bound)

/-- The store and the scope's bounds after `updateMinMaxTimezone(tz)`; the
value returned is the pair of bounds. -/
def updateMinMaxTimezone (tz : Option Zone) (s : Store) (b : BoundRefs) : Store × BoundRefs :=
  ((convertBound tz (convertBound tz s b.minDate).1 b.maxDate).1,
    ⟨(convertBound tz s b.minDate).2, (convertBound tz (convertBound tz s b.minDate).1 b.maxDate).2⟩)

end DatePicker

/-! ## The time picker, `src/source/directives/time-picker.js` -/

namespace TimePicker

/-- The format `h:mm a`, `defaultFormat`. -/
def defaultFormat : List Token :=
  [Token.h, Token.lit ':', Token.mm, Token.lit ' ', Token.a]

/-- What a link function reads and never writes: the browser's zone, the zone
`moment.tz.guess()` reports, and the attributes `time-picker` (the format) and
`picker-interval` (after `parseInt`). -/
structure Env where
  localOffset : Int
  guess : Option Zone
  timePicker : Option (List Token)
  pickerInterval : Option Int
  deriving Repr

/-- An entry of `scope.times`. -/
structure TimeSlot where
  display : String
  hours : Int
  minutes : Int
  deriving DecidableEq, Repr

/-- The state of one link function: the scope's fields, the private
`localMoment`, and the `time` validity key. -/
structure Link where
  model : Option Moment
  timezone : Option Zone
  times : List TimeSlot
  showTimepicker : Bool
  localMoment : Moment
  timeValid : Bool
  deriving DecidableEq, Repr

def getTimezone (env : Env) (st : Link) : Option Zone :=
  match st.timezone with
  | some z => some z
  | none => env.guess

def createNow (env : Env) (st : Link) (now : Int) : Moment :=
  match getTimezone env st with
  | some z => (Moment.ofInstant env.localOffset now).tz z
  | none => Moment.ofInstant env.localOffset now

def createLocalMoment (env : Env) (st : Link) (now : Int) : Moment :=
  match st.model with
  | some m => m.clone.startOf TimeUnit.minute
  | none => (createNow env st now).startOf TimeUnit.minute

/-- `attrs.timePicker || defaultFormat`. -/
def getDateFormat (env : Env) : List Token :=
  match env.timePicker with
  | some f => f
  | none => defaultFormat

/-- The parser the directive puts first in `$parsers`. -/
def timeStringParser (env : Env) (now : Int) (st : Link) (str : String) : Link × Moment :=
  let parsedMoment := Moment.parseStrict (getDateFormat env) env.localOffset now str
  let isValid := parsedMoment.isValid
  let st1 := { st with timeValid := str == "" || isValid }
  let st2 :=
    if isValid then
      { st1 with localMoment :=
          (st1.localMoment.set
            ⟨none, none, none,
              some parsedMoment.hours, some parsedMoment.minutes, some parsedMoment.seconds⟩).clone }
    else st1
  (st2, st2.localMoment)

/-- The formatter the directive adds to `$formatters`; `moment.isMoment` of a
value that is a moment or absent is whether it is present. -/
def timeMomentFormatter (env : Env) (st : Link) (modelMoment : Option Moment) : Link × String :=
  let isValid := modelMoment.isSome
  let st1 := { st with timeValid := modelMoment.isNone || isValid }
  let st2 :=
    match modelMoment with
    | some mm =>
      { st1 with localMoment :=
          (st1.localMoment.set
            ⟨some mm.year, some mm.month, some mm.date, none, none, none⟩).clone }
    | none => st1
  (st2, st2.localMoment.format (getDateFormat env))

/-- The slot pushed for hour `i` and minute `k`: `new Date("1/1/1990 i:k")` is
the wall-clock reading 1 January 1990, `i:k`, in the browser's zone. -/
def makeSlot (env : Env) (i k : Int) : TimeSlot :=
  let workingTime := Moment.mk
    (ESDate.makeDate (ESDate.makeDay 1990 0 1) (ESDate.makeTime i k 0 0)) env.localOffset
  ⟨workingTime.format (getDateFormat env), i, k⟩

/-- The inner loop of `createTimes`, `for (k = ...; k < 60; k += interval)`,
from the value `k`: the slots pushed, or `none` when `fuel` iterations do not
reach the end of the loop. -/
def minuteLoop (env : Env) (interval : Int) (i : Int) : Nat → Int → Option (List TimeSlot)
  | 0, _ => none
  | fuel + 1, k =>
    if k < 60 then
      (minuteLoop env interval i fuel (k + interval)).map (fun rest => makeSlot env i k :: rest)
    else some []

/-- The outer loop of `createTimes` over the hours `i, i + 1, ...`, `n` of them. -/
def hourLoop (env : Env) (interval : Int) (fuel : Nat) : Nat → Int → Option (List TimeSlot)
  | 0, _ => some []
  | n + 1, i =>
    match minuteLoop env interval i fuel 0 with
    | none => none
    | some slots => (hourLoop env interval fuel n (i + 1)).map (fun rest => slots ++ rest)

/-- The value of `scope.times` that `createTimes` builds: `none` when an hour's
inner loop needs more than `fuel` iterations. -/
def createTimes (env : Env) (fuel : Nat) : Option (List TimeSlot) :=
  let interval := match env.pickerInterval with
    | some n => n
    | none => 60
  hourLoop env interval fuel 24 0

end TimePicker
/-! ## The module variable `firstDayOfWeek` -/

/-- `moment#isoWeekday`: day of the week with Sunday counted as 7. -/
def Moment.isoWeekday : Moment → Option Int
  | Moment.invalid => none
  | Moment.mk d _ =>
    some (if ESDate.weekDay (ESDate.day d) = 0 then 7 else ESDate.weekDay (ESDate.day d))

/-- `moment#startOf("isoWeek")`: midnight of the Monday of the moment's week. -/
def Moment.startOfIsoWeek : Moment → Moment
  | Moment.invalid => Moment.invalid
  | Moment.mk d off =>
    Moment.mk (ESDate.makeDate
      (ESDate.makeDay (ESDate.yearFromTime d) (ESDate.monthFromTime d)
        (ESDate.dateFromTime d -
          ((if ESDate.weekDay (ESDate.day d) = 0 then 7 else ESDate.weekDay (ESDate.day d)) - 1)))
      0) off

/-- The value the directive file gives `firstDayOfWeek` when it is loaded at
the instant `now`: `moment().startOf("isoWeek").day()`. -/
def DatePicker.firstDayOfWeek (localOffset now : Int) : Option Int :=
  (Moment.ofInstant localOffset now).startOfIsoWeek.weekday

/-! ## States used in the examples -/

/-- A scope with no model, no timezone and no bounds. -/
def DatePicker.emptyScope : DatePicker.Scope :=
  ⟨none, none, none, none, none, none, none, [], [], 0, 0, "", 0, 0, 0, 0⟩

/-- A browser on UTC, no guessed zone, weeks starting on Monday, the default format. -/
def DatePicker.plainEnv : DatePicker.Env := ⟨0, none, 1, DatePicker.defaultFormat⟩

/-- A browser on UTC, no guessed zone, the default format, the default interval. -/
def TimePicker.plainEnv : TimePicker.Env := ⟨0, none, none, none⟩

/-! ## Notions the statements below are phrased in -/

namespace Moment

/-- `moment#unix`: the instant in whole seconds, `floor(valueOf / 1000)`. -/
def unix : Moment → Option Int
  | invalid => none
  | mk d off => some ((d - off * 60000) / 1000)

/-- The calendar date a moment shows: year, month (0-based), day of the month. -/
def calendarDate : Moment → Option (Int × Int × Int)
  | invalid => none
  | mk d _ => some (ESDate.yearFromTime d, ESDate.monthFromTime d, ESDate.dateFromTime d)

/-- The time of day a moment shows: hour, minute, second. -/
def clockTime : Moment → Option (Int × Int × Int)
  | invalid => none
  | mk d _ => some (ESDate.hourFromTime d, ESDate.minFromTime d, ESDate.secFromTime d)

end Moment

/-- The offset of the zone the calendar grid is built in: the scope's timezone,
else the guessed one, else the browser's. -/
def DatePicker.gridOffset (env : DatePicker.Env) (sc : DatePicker.Scope) : Int :=
  match DatePicker.getTimezone env sc with
  | some z => z.utcOffset
  | none => env.localOffset

/-- The number of slots in an hour for an interval in minutes: `ceil(60 / interval)`. -/
def TimePicker.slotsPerHour (interval : Int) : Nat := ((59 + interval) / interval).toNat

/-- One time slot comes before another: earlier hour, or same hour and earlier minute. -/
def TimePicker.slotLt (a b : TimePicker.TimeSlot) : Prop :=
  a.hours < b.hours ∨ (a.hours = b.hours ∧ a.minutes < b.minutes)

/-- One calendar date (year, month, day) is earlier than another. -/
def calendarLt (a b : Int × Int × Int) : Prop :=
  a.1 < b.1 ∨ (a.1 = b.1 ∧ (a.2.1 < b.2.1 ∨ (a.2.1 = b.2.1 ∧ a.2.2 < b.2.2)))


/-! ## The calendar arithmetic -/

namespace ESDate

theorem daysInYear_eq (y : Int) : dayFromYear (y + 1) = dayFromYear y + daysInYear y := by
  unfold dayFromYear daysInYear isLeapYear
  split <;> rename_i h <;> simp at h <;> omega

theorem dayFromYear_mono {a b : Int} (h : a ≤ b) : dayFromYear a ≤ dayFromYear b := by
  unfold dayFromYear
  omega

theorem yearFromDay_spec (d : Int) :
    dayFromYear (yearFromDay d) ≤ d ∧ d < dayFromYear (yearFromDay d + 1) := by
  unfold yearFromDay
  simp only
  split
  · rename_i h
    rw [Int.sub_add_cancel]
    refine ⟨?_, h⟩
    unfold dayFromYear at *
    omega
  · split
    · rename_i h1 h2
      refine ⟨by omega, ?_⟩
      unfold dayFromYear at *
      omega
    · constructor <;> omega

theorem yearFromDay_unique {d y : Int} (h1 : dayFromYear y ≤ d) (h2 : d < dayFromYear (y + 1)) :
    yearFromDay d = y := by
  have hs := yearFromDay_spec d
  by_contra hne
  rcases Int.lt_or_gt_of_ne hne with hlt | hgt
  · have := dayFromYear_mono (show yearFromDay d + 1 ≤ y by omega)
    omega
  · have := dayFromYear_mono (show y + 1 ≤ yearFromDay d by omega)
    omega

theorem daysInYear_leapShift (y : Int) : daysInYear y = 365 + leapShift (isLeapYear y) := by
  unfold daysInYear leapShift
  split <;> rfl

theorem ite_cases {c : Prop} [Decidable c] {a b : Int} (P : Int → Prop)
    (h1 : c → P a) (h2 : ¬c → P b) : P (if c then a else b) := by
  by_cases h : c
  · rw [if_pos h]; exact h1 h
  · rw [if_neg h]; exact h2 h

theorem leapShift_range (leap : Bool) : 0 ≤ leapShift leap ∧ leapShift leap ≤ 1 := by
  cases leap <;> simp [leapShift]

theorem daysBeforeMonth_table (leap : Bool) :
    daysBeforeMonth leap 0 = 0 ∧ daysBeforeMonth leap 1 = 31 ∧
    daysBeforeMonth leap 2 = 59 + leapShift leap ∧ daysBeforeMonth leap 3 = 90 + leapShift leap ∧
    daysBeforeMonth leap 4 = 120 + leapShift leap ∧ daysBeforeMonth leap 5 = 151 + leapShift leap ∧
    daysBeforeMonth leap 6 = 181 + leapShift leap ∧ daysBeforeMonth leap 7 = 212 + leapShift leap ∧
    daysBeforeMonth leap 8 = 243 + leapShift leap ∧ daysBeforeMonth leap 9 = 273 + leapShift leap ∧
    daysBeforeMonth leap 10 = 304 + leapShift leap ∧
    daysBeforeMonth leap 11 = 334 + leapShift leap ∧
    daysBeforeMonth leap 12 = 365 + leapShift leap := by
  simp [daysBeforeMonth]

theorem monthFromDayWithinYear_spec (leap : Bool) (n : Int) (h0 : 0 ≤ n)
    (h1 : n < 365 + leapShift leap) :
    (0 ≤ monthFromDayWithinYear leap n ∧ monthFromDayWithinYear leap n ≤ 11) ∧
    daysBeforeMonth leap (monthFromDayWithinYear leap n) ≤ n ∧
      n < daysBeforeMonth leap (monthFromDayWithinYear leap n + 1) := by
  have hl := leapShift_range leap
  unfold monthFromDayWithinYear
  iterate 11
    refine ite_cases (fun m => (0 ≤ m ∧ m ≤ 11) ∧
      daysBeforeMonth leap m ≤ n ∧ n < daysBeforeMonth leap (m + 1)) (fun h => ?_) (fun h => ?_)
    · simp [daysBeforeMonth]
      omega
  simp [daysBeforeMonth]
  omega


theorem daysBeforeMonth_succ (leap : Bool) (m : Int) (h0 : 0 ≤ m) (h1 : m ≤ 11) :
    daysBeforeMonth leap m + 28 ≤ daysBeforeMonth leap (m + 1) ∧
    daysBeforeMonth leap (m + 1) ≤ daysBeforeMonth leap m + 31 := by
  have hl := leapShift_range leap
  have hm : m = 0 ∨ m = 1 ∨ m = 2 ∨ m = 3 ∨ m = 4 ∨ m = 5 ∨ m = 6 ∨ m = 7 ∨ m = 8 ∨ m = 9 ∨
      m = 10 ∨ m = 11 := by omega
  rcases hm with h | h | h | h | h | h | h | h | h | h | h | h <;> subst h <;>
    simp [daysBeforeMonth] <;> omega

theorem daysBeforeMonth_mono (leap : Bool) (a b : Int) (h0 : 0 ≤ a) (hab : a ≤ b) (h1 : b ≤ 12) :
    daysBeforeMonth leap a ≤ daysBeforeMonth leap b := by
  obtain ⟨k, rfl⟩ := Int.le.dest hab
  induction k with
  | zero => simp
  | succ k ih =>
    have h2 := ih (by omega) (by omega)
    have h3 := daysBeforeMonth_succ leap (a + (k : Int)) (by omega) (by omega)
    have e : a + ((k + 1 : Nat) : Int) = a + (k : Int) + 1 := by push_cast; ring
    rw [e]
    exact le_trans h2 (by linarith [h3.1])

theorem monthFromDayWithinYear_unique (leap : Bool) (m n : Int) (hm0 : 0 ≤ m) (hm1 : m ≤ 11)
    (h0 : daysBeforeMonth leap m ≤ n) (h1 : n < daysBeforeMonth leap (m + 1)) :
    monthFromDayWithinYear leap n = m := by
  have hz : daysBeforeMonth leap 0 = 0 := by simp [daysBeforeMonth]
  have ht : daysBeforeMonth leap 12 = 365 + leapShift leap := by simp [daysBeforeMonth]
  have hn0 : 0 ≤ n := by
    have := daysBeforeMonth_mono leap 0 m (by omega) hm0 (by omega)
    rw [hz] at this
    exact le_trans this h0
  have hn1 : n < 365 + leapShift leap := by
    have := daysBeforeMonth_mono leap (m + 1) 12 (by omega) (by omega) (by omega)
    rw [ht] at this
    exact lt_of_lt_of_le h1 this
  clear hz ht
  obtain ⟨⟨r0, r1⟩, s0, s1⟩ := monthFromDayWithinYear_spec leap n hn0 hn1
  by_contra hne
  rcases Int.lt_or_gt_of_ne hne with hlt | hgt
  · have := daysBeforeMonth_mono leap (monthFromDayWithinYear leap n + 1) m (by omega)
      (by omega) (by omega)
    exact absurd (lt_of_lt_of_le (lt_of_le_of_lt h0 s1) this) (lt_irrefl _)
  · have := daysBeforeMonth_mono leap (m + 1) (monthFromDayWithinYear leap n) (by omega)
      (by omega) (by omega)
    exact absurd (lt_of_lt_of_le (lt_of_le_of_lt s0 h1) this) (lt_irrefl _)

theorem dayWithinYear_range (d : Int) :
    0 ≤ dayWithinYear d ∧ dayWithinYear d < 365 + leapShift (isLeapYear (yearFromDay d)) := by
  have hs := yearFromDay_spec d
  have he := daysInYear_eq (yearFromDay d)
  rw [daysInYear_leapShift] at he
  unfold dayWithinYear
  omega

theorem makeDay_eq (y m dt : Int) (h0 : 0 ≤ m) (h1 : m ≤ 11) :
    makeDay y m dt = dayFromYear y + daysBeforeMonth (isLeapYear y) m + dt - 1 := by
  have e1 : m / 12 = 0 := by omega
  have e2 : m % 12 = m := by omega
  simp only [makeDay, e1, e2, add_zero]

theorem monthFromDay_range (d : Int) : 0 ≤ monthFromDay d ∧ monthFromDay d ≤ 11 :=
  (monthFromDayWithinYear_spec _ _ (dayWithinYear_range d).1 (dayWithinYear_range d).2).1

theorem dateFromDay_range (d : Int) :
    1 ≤ dateFromDay d ∧
      dateFromDay d ≤ daysBeforeMonth (isLeapYear (yearFromDay d)) (monthFromDay d + 1) -
        daysBeforeMonth (isLeapYear (yearFromDay d)) (monthFromDay d) := by
  have h := (monthFromDayWithinYear_spec _ _ (dayWithinYear_range d).1 (dayWithinYear_range d).2).2
  unfold dateFromDay monthFromDay
  constructor
  · linarith [h.1]
  · linarith [h.2]

/-- Reading the fields of a day number and putting them together again gives
the day number back. -/
theorem makeDay_fields (d : Int) :
    makeDay (yearFromDay d) (monthFromDay d) (dateFromDay d) = d := by
  rw [makeDay_eq _ _ _ (monthFromDay_range d).1 (monthFromDay_range d).2]
  unfold dateFromDay dayWithinYear
  ring

/-- The fields of the day number made from a date of the calendar are that date. -/
theorem fields_makeDay (y m dt : Int) (h0 : 0 ≤ m) (h1 : m ≤ 11) (h2 : 1 ≤ dt)
    (h3 : dt ≤ daysBeforeMonth (isLeapYear y) (m + 1) - daysBeforeMonth (isLeapYear y) m) :
    yearFromDay (makeDay y m dt) = y ∧ monthFromDay (makeDay y m dt) = m ∧
      dateFromDay (makeDay y m dt) = dt := by
  rw [makeDay_eq y m dt h0 h1]
  have hz : daysBeforeMonth (isLeapYear y) 0 = 0 := by simp [daysBeforeMonth]
  have ht : daysBeforeMonth (isLeapYear y) 12 = 365 + leapShift (isLeapYear y) := by
    simp [daysBeforeMonth]
  have ha := daysBeforeMonth_mono (isLeapYear y) 0 m (by omega) h0 (by omega)
  have hb := daysBeforeMonth_mono (isLeapYear y) (m + 1) 12 (by omega) (by omega) (by omega)
  rw [hz] at ha
  rw [ht] at hb
  clear hz ht
  have he := daysInYear_eq y
  rw [daysInYear_leapShift] at he
  have hy : yearFromDay (dayFromYear y + daysBeforeMonth (isLeapYear y) m + dt - 1) = y :=
    yearFromDay_unique (by linarith) (by linarith)
  have hw : dayWithinYear (dayFromYear y + daysBeforeMonth (isLeapYear y) m + dt - 1) =
      daysBeforeMonth (isLeapYear y) m + dt - 1 := by
    unfold dayWithinYear
    rw [hy]
    ring
  have hm : monthFromDay (dayFromYear y + daysBeforeMonth (isLeapYear y) m + dt - 1) = m := by
    unfold monthFromDay
    rw [hy, hw]
    exact monthFromDayWithinYear_unique _ _ _ h0 h1 (by linarith) (by linarith)
  refine ⟨hy, hm, ?_⟩
  unfold dateFromDay
  rw [hm, hy, hw]
  ring

end ESDate

/-! ## The bounds validator -/

namespace DatePicker

theorem isSameOrAfter_second (c oc m om : Int) :
    (Moment.mk c oc).isSameOrAfter (Moment.mk m om) TimeUnit.second = true ↔
      (m - om * 60000) / 1000 ≤ (c - oc * 60000) / 1000 := by
  simp only [Moment.isSameOrAfter, Moment.isSame, Moment.isAfter, Moment.clone, Moment.startOf,
    Moment.endOf, Moment.valueOf, Bool.or_eq_true, Bool.and_eq_true, decide_eq_true_eq]
  omega

theorem isSameOrBefore_second (c oc m om : Int) :
    (Moment.mk c oc).isSameOrBefore (Moment.mk m om) TimeUnit.second = true ↔
      (c - oc * 60000) / 1000 ≤ (m - om * 60000) / 1000 := by
  simp only [Moment.isSameOrBefore, Moment.isSame, Moment.isBefore, Moment.clone, Moment.startOf,
    Moment.endOf, Moment.valueOf, Bool.or_eq_true, Bool.and_eq_true, decide_eq_true_eq]
  omega

/-- C1: `validateMin(candidate, min)` is true exactly when `min` is absent or
invalid, or `candidate` is absent or invalid, or the candidate's instant in
whole seconds is at or after that of `min`. -/
theorem validateMin_iff (candidate min : Option Moment) :
    validateMin candidate min = true ↔
      (min = none ∨ min = some Moment.invalid) ∨
      (candidate = none ∨ candidate = some Moment.invalid) ∨
      ∃ c m a b, candidate = some c ∧ min = some m ∧
        c.unix = some a ∧ m.unix = some b ∧ b ≤ a := by
  cases candidate with
  | none => simp [validateMin]
  | some c =>
    cases min with
    | none => simp [validateMin]
    | some m =>
      cases c with
      | invalid => simp [validateMin, Moment.isValid]
      | mk c oc =>
        cases m with
        | invalid => simp [validateMin, Moment.isValid]
        | mk m om =>
          simp [validateMin, Moment.isValid, isSameOrAfter_second, Moment.unix]

theorem validateMax_iff (candidate max : Option Moment) :
    validateMax candidate max = true ↔
      (max = none ∨ max = some Moment.invalid) ∨
      (candidate = none ∨ candidate = some Moment.invalid) ∨
      ∃ c m a b, candidate = some c ∧ max = some m ∧
        c.unix = some a ∧ m.unix = some b ∧ a ≤ b := by
  cases candidate with
  | none => simp [validateMax]
  | some c =>
    cases max with
    | none => simp [validateMax]
    | some m =>
      cases c with
      | invalid => simp [validateMax, Moment.isValid]
      | mk c oc =>
        cases m with
        | invalid => simp [validateMax, Moment.isValid]
        | mk m om =>
          simp [validateMax, Moment.isValid, isSameOrBefore_second, Moment.unix]

theorem validateMin_of_unix_le {value min : Moment} {a lo : Int}
    (hv : value.unix = some a) (hmin : min.unix = some lo) (h : lo ≤ a) :
    validateMin (some value) (some min) = true := by
  cases value with
  | invalid => simp [Moment.unix] at hv
  | mk c oc =>
    cases min with
    | invalid => simp [Moment.unix] at hmin
    | mk m om =>
      simp only [Moment.unix, Option.some.injEq] at hv hmin
      simp only [validateMin, Moment.isValid, Bool.not_true, Bool.or_self, Bool.false_eq_true,
        if_false, isSameOrAfter_second]
      omega

theorem validateMax_of_unix_le {value max : Moment} {a hi : Int}
    (hv : value.unix = some a) (hmax : max.unix = some hi) (h : a ≤ hi) :
    validateMax (some value) (some max) = true := by
  cases value with
  | invalid => simp [Moment.unix] at hv
  | mk c oc =>
    cases max with
    | invalid => simp [Moment.unix] at hmax
    | mk m om =>
      simp only [Moment.unix, Option.some.injEq] at hv hmax
      simp only [validateMax, Moment.isValid, Bool.not_true, Bool.or_self, Bool.false_eq_true,
        if_false, isSameOrBefore_second]
      omega

/-- C2: for valid `value`, `min` and `max` with `min ≤ value ≤ max` in whole
seconds (equality included), `validateMin` and `validateMax` are both true, and
`validateMinMax` on a scope with these bounds reports `minIsValid`,
`maxIsValid` and `isValid` all true. -/
theorem validateMinMax_within (sc : Scope) (value min max : Moment) (a lo hi : Int)
    (hv : value.unix = some a) (hmin : min.unix = some lo) (hmax : max.unix = some hi)
    (h1 : lo ≤ a) (h2 : a ≤ hi)
    (hsmin : sc.minDate = some min) (hsmax : sc.maxDate = some max) :
    validateMin (some value) (some min) = true ∧
    validateMax (some value) (some max) = true ∧
    validateMinMax sc (some value) = ⟨true, true, true⟩ := by
  have e1 := validateMin_of_unix_le hv hmin h1
  have e2 := validateMax_of_unix_le hv hmax h2
  refine ⟨e1, e2, ?_⟩
  simp [validateMinMax, getMinDate, getMaxDate, hsmin, hsmax, Moment.clone, e1, e2]

/-- C2 at a value in the same second as both bounds: value 10:00:00.250,
min 10:00:00.900 and max 10:00:00.100 of 10 January 2024, UTC. -/
theorem validateMinMax_within_witness :
    validateMin (some (Moment.mk 1704880800250 0)) (some (Moment.mk 1704880800900 0)) = true ∧
    validateMax (some (Moment.mk 1704880800250 0)) (some (Moment.mk 1704880800100 0)) = true ∧
    validateMinMax
      ⟨none, none, some (Moment.mk 1704880800900 0), some (Moment.mk 1704880800100 0),
        none, none, none, [], [], 0, 0, "", 0, 0, 0, 0⟩
      (some (Moment.mk 1704880800250 0)) = ⟨true, true, true⟩ :=
  validateMinMax_within _ (Moment.mk 1704880800250 0) (Moment.mk 1704880800900 0)
    (Moment.mk 1704880800100 0) 1704880800 1704880800 1704880800
    (by decide) (by decide) (by decide) (by decide) (by decide) rfl rfl

end DatePicker

/-! ## The calendar grid -/

namespace ESDate

theorem daysInMonthOf_eq (y m : Int) (h0 : 0 ≤ m) (h1 : m ≤ 11) :
    Moment.daysInMonthOf y m = daysInMonth y m := by
  have e1 : m % 12 = m := by omega
  have hm : m = 0 ∨ m = 1 ∨ m = 2 ∨ m = 3 ∨ m = 4 ∨ m = 5 ∨ m = 6 ∨ m = 7 ∨ m = 8 ∨ m = 9 ∨
      m = 10 ∨ m = 11 := by omega
  unfold Moment.daysInMonthOf daysInMonth
  simp only [e1, sub_self, Int.zero_ediv, add_zero]
  rcases hm with h | h | h | h | h | h | h | h | h | h | h | h <;> subst h <;>
    cases isLeapYear y <;> simp [daysBeforeMonth, leapShift]

theorem daysInMonth_range (y m : Int) (h0 : 0 ≤ m) (h1 : m ≤ 11) :
    28 ≤ daysInMonth y m ∧ daysInMonth y m ≤ 31 := by
  have h := daysBeforeMonth_succ (isLeapYear y) m h0 h1
  unfold daysInMonth
  constructor
  · linarith [h.1]
  · linarith [h.2]

theorem timeWithinDay_range (t : Int) : 0 ≤ timeWithinDay t ∧ timeWithinDay t < 86400000 := by
  unfold timeWithinDay
  omega

theorem day_makeDate (d t : Int) (h0 : 0 ≤ t) (h1 : t < 86400000) : day (makeDate d t) = d := by
  unfold day makeDate
  omega

theorem timeWithinDay_makeDate (d t : Int) (h0 : 0 ≤ t) (h1 : t < 86400000) :
    timeWithinDay (makeDate d t) = t := by
  unfold timeWithinDay makeDate
  omega

theorem makeDate_day (t : Int) : makeDate (day t) (timeWithinDay t) = t := by
  unfold makeDate day timeWithinDay
  omega

/-- The length of the month a day number falls in bounds its day of the month. -/
theorem dateFromDay_le (d : Int) :
    1 ≤ dateFromDay d ∧ dateFromDay d ≤ daysInMonth (yearFromDay d) (monthFromDay d) :=
  dateFromDay_range d

/-- A date in a leap year's February other than the 29th, or in any other
month, exists in every year. -/
theorem date_fits_other_year (d y : Int)
    (h : ¬(isLeapYear (yearFromDay d) = true ∧ monthFromDay d = 1 ∧ dateFromDay d = 29)) :
    dateFromDay d ≤ daysInMonth y (monthFromDay d) := by
  have hr := monthFromDay_range d
  have hd := dateFromDay_le d
  rw [← daysInMonthOf_eq _ _ hr.1 hr.2] at hd ⊢
  have e1 : monthFromDay d % 12 = monthFromDay d := by omega
  unfold Moment.daysInMonthOf at hd ⊢
  simp only [e1, sub_self, Int.zero_ediv, add_zero] at hd ⊢
  by_cases hm : monthFromDay d = 1
  · simp only [hm, if_true] at hd ⊢
    have h29 : dateFromDay d ≠ 29 ∨ isLeapYear (yearFromDay d) = false := by
      by_cases hl : isLeapYear (yearFromDay d) = true
      · left
        intro h9
        exact h ⟨hl, hm, h9⟩
      · right
        simpa using hl
    rcases h29 with h9 | hl
    · have : dateFromDay d ≤ 28 := by
        split at hd <;> omega
      split <;> omega
    · rw [hl] at hd
      simp only [Bool.false_eq_true, if_false] at hd
      split <;> omega
  · simp only [hm, if_false] at hd ⊢
    exact hd.2

end ESDate

namespace Moment

open ESDate

/-- The fields of a time value put together from a date of the calendar and a
time of day. -/
theorem fields_makeDate (y m dt t : Int) (h0 : 0 ≤ m) (h1 : m ≤ 11) (h2 : 1 ≤ dt)
    (h3 : dt ≤ ESDate.daysInMonth y m) (ht0 : 0 ≤ t) (ht1 : t < 86400000) :
    yearFromTime (makeDate (makeDay y m dt) t) = y ∧
    monthFromTime (makeDate (makeDay y m dt) t) = m ∧
    dateFromTime (makeDate (makeDay y m dt) t) = dt ∧
    timeWithinDay (makeDate (makeDay y m dt) t) = t := by
  have hf := fields_makeDay y m dt h0 h1 h2 h3
  unfold yearFromTime monthFromTime dateFromTime
  rw [day_makeDate _ _ ht0 ht1]
  exact ⟨hf.1, hf.2.1, hf.2.2, timeWithinDay_makeDate _ _ ht0 ht1⟩

theorem setYear_eq (y d off : Int) :
    ∃ dt, (1 ≤ dt ∧ dt ≤ ESDate.daysInMonth y (monthFromTime d)) ∧
      setYear (some y) (mk d off) =
        mk (makeDate (makeDay y (monthFromTime d) dt) (timeWithinDay d)) off := by
  have hr : 0 ≤ monthFromTime d ∧ monthFromTime d ≤ 11 := monthFromDay_range (ESDate.day d)
  by_cases h : isLeapYear (yearFromTime d) = true ∧ monthFromTime d = 1 ∧ dateFromTime d = 29
  · refine ⟨daysInMonthOf y (monthFromTime d), ?_, ?_⟩
    · rw [daysInMonthOf_eq _ _ hr.1 hr.2]
      have := daysInMonth_range y (monthFromTime d) hr.1 hr.2
      exact ⟨by linarith [this.1], le_refl _⟩
    · simp [setYear, h.1, h.2.1, h.2.2]
  · refine ⟨dateFromTime d, ⟨(dateFromDay_le _).1, date_fits_other_year _ y h⟩, ?_⟩
    have h' : (isLeapYear (yearFromTime d) && monthFromTime d == 1 && dateFromTime d == 29)
        = false := by
      rw [Bool.eq_false_iff]
      intro hc
      simp only [Bool.and_eq_true, beq_iff_eq] at hc
      exact h ⟨hc.1.1, hc.1.2, hc.2⟩
    simp only [setYear, h', Bool.false_eq_true, if_false]

theorem setMonth_eq (mth d off : Int) (h0 : 0 ≤ mth) (h1 : mth ≤ 11) :
    ∃ dt, (1 ≤ dt ∧ dt ≤ ESDate.daysInMonth (yearFromTime d) mth) ∧
      setMonth (some mth) (mk d off) =
        mk (makeDate (makeDay (yearFromTime d) mth dt) (timeWithinDay d)) off := by
  refine ⟨min (dateFromTime d) (daysInMonthOf (yearFromTime d) mth), ?_, rfl⟩
  rw [daysInMonthOf_eq _ _ h0 h1]
  have := daysInMonth_range (yearFromTime d) mth h0 h1
  have hd : 1 ≤ dateFromTime d := (dateFromDay_le (ESDate.day d)).1
  constructor
  · exact le_min hd (by linarith [this.1])
  · exact min_le_right _ _

/-- Setting year, month and day of the month on a valid moment gives that
date at the moment's time of day. -/
theorem set_date (y mth i d off : Int) (h0 : 0 ≤ mth) (h1 : mth ≤ 11) :
    set ⟨some (some y), some (some mth), some (some i), none, none, none⟩ (mk d off) =
      mk (makeDate (makeDay y mth i) (timeWithinDay d)) off := by
  have ht := timeWithinDay_range d
  have hr : 0 ≤ monthFromTime d ∧ monthFromTime d ≤ 11 := monthFromDay_range (ESDate.day d)
  obtain ⟨dt1, hdt1, e1⟩ := setYear_eq y d off
  have f1 := fields_makeDate y (monthFromTime d) dt1 (timeWithinDay d) hr.1 hr.2 hdt1.1 hdt1.2 ht.1 ht.2
  obtain ⟨dt2, hdt2, e2⟩ := setMonth_eq mth
    (makeDate (makeDay y (monthFromTime d) dt1) (timeWithinDay d)) off h0 h1
  rw [f1.1, f1.2.2.2] at e2
  rw [f1.1] at hdt2
  have f2 := fields_makeDate y mth dt2 (timeWithinDay d) h0 h1 hdt2.1 hdt2.2 ht.1 ht.2
  simp only [set, applyUnit, e1, e2, setDate, f2.1, f2.2.1, f2.2.2.2]

end Moment

namespace ESDate

theorem lt_of_calendarLt (a b : Int)
    (h : calendarLt (yearFromDay a, monthFromDay a, dateFromDay a)
      (yearFromDay b, monthFromDay b, dateFromDay b)) : a < b := by
  have ea := makeDay_fields a
  have eb := makeDay_fields b
  have ra := monthFromDay_range a
  have rb := monthFromDay_range b
  rw [makeDay_eq _ _ _ ra.1 ra.2] at ea
  rw [makeDay_eq _ _ _ rb.1 rb.2] at eb
  have da := dateFromDay_range a
  have db := dateFromDay_range b
  simp only [calendarLt] at h
  rcases h with hy | ⟨hy, hm | ⟨hm, hd⟩⟩
  · have s1 := (yearFromDay_spec a).2
    have s2 := (yearFromDay_spec b).1
    have s3 := dayFromYear_mono (show yearFromDay a + 1 ≤ yearFromDay b by omega)
    linarith
  · rw [← hy] at eb db
    have s := daysBeforeMonth_mono (isLeapYear (yearFromDay a)) (monthFromDay a + 1)
      (monthFromDay b) (by omega) (by omega) (by omega)
    linarith [da.2, db.1]
  · rw [← hy, ← hm] at eb
    linarith

/-- Calendar dates are ordered as their day numbers are. -/
theorem calendarLt_iff (a b : Int) :
    calendarLt (yearFromDay a, monthFromDay a, dateFromDay a)
      (yearFromDay b, monthFromDay b, dateFromDay b) ↔ a < b := by
  constructor
  · exact lt_of_calendarLt a b
  · intro hab
    by_contra hn
    have tri : (yearFromDay a = yearFromDay b ∧ monthFromDay a = monthFromDay b ∧
        dateFromDay a = dateFromDay b) ∨
        calendarLt (yearFromDay b, monthFromDay b, dateFromDay b)
          (yearFromDay a, monthFromDay a, dateFromDay a) := by
      simp only [calendarLt] at hn ⊢
      omega
    rcases tri with ⟨e1, e2, e3⟩ | hlt
    · have ea := makeDay_fields a
      have eb := makeDay_fields b
      rw [e1, e2, e3, eb] at ea
      omega
    · have := lt_of_calendarLt b a hlt
      omega

theorem makeDay_succ (y m dt : Int) : makeDay y m (dt + 1) = makeDay y m dt + 1 := by
  unfold makeDay
  ring

end ESDate

namespace Moment

open ESDate

theorem startOf_day (d off : Int) :
    (mk d off).startOf TimeUnit.day = mk (ESDate.day d * 86400000) off := by
  simp only [startOf, yearFromTime, monthFromTime, dateFromTime, makeDay_fields, makeDate,
    add_zero]

theorem endOf_day (d off : Int) :
    (mk d off).endOf TimeUnit.day = mk ((ESDate.day d + 1) * 86400000 - 1) off := by
  simp only [endOf, yearFromTime, monthFromTime, dateFromTime, makeDay_succ, makeDay_fields,
    makeDate, add_zero]

end Moment

namespace Moment

open ESDate

/-- For the years that lie wholly inside the range of `Date`, and a browser
offset of at most 16 hours, the moment `buildMonth` makes for a month in
`0..11` is midnight of the first day of that month. -/
theorem ofYearMonth_eq (localOffset year month : Int) (h0 : 0 ≤ month) (h1 : month ≤ 11)
    (hy0 : -271820 ≤ year) (hy1 : year ≤ 275759)
    (ho0 : -960 ≤ localOffset) (ho1 : localOffset ≤ 960) :
    ofYearMonth localOffset year month = mk (makeDate (makeDay year month 1) 0) localOffset := by
  have b0 := dayFromYear_mono hy0
  have b1 := dayFromYear_mono hy1
  have c0 : dayFromYear (-271820) = -99999744 := by decide
  have c1 : dayFromYear 275759 = 99999379 := by decide
  rw [c0] at b0
  rw [c1] at b1
  have hz : daysBeforeMonth (isLeapYear year) 0 = 0 := by simp [daysBeforeMonth]
  have ht : daysBeforeMonth (isLeapYear year) 12 = 365 + leapShift (isLeapYear year) := by
    simp [daysBeforeMonth]
  have ha := daysBeforeMonth_mono (isLeapYear year) 0 month (by omega) h0 (by omega)
  have hb := daysBeforeMonth_mono (isLeapYear year) month 12 h0 (by omega) (by omega)
  rw [hz] at ha
  rw [ht] at hb
  clear hz ht
  have hl := leapShift_range (isLeapYear year)
  have e := makeDay_eq year month 1 h0 h1
  have hr : inRange (makeDate (makeDay year month 1) 0 - localOffset * 60000) = true := by
    rw [e]
    simp only [inRange, makeDate, decide_eq_true_eq]
    omega
  simp only [ofYearMonth, h0, h1, and_self, if_true, hr]

end Moment

namespace DatePicker

open ESDate

theorem validateMin_startOf_day (D t dm off : Int) (h0 : 0 ≤ t) (h1 : t < 86400000) :
    validateMin (some (Moment.mk (makeDate D t) off))
      (some ((Moment.mk dm off).startOf TimeUnit.day)) = true ↔ ESDate.day dm ≤ D := by
  rw [Moment.startOf_day]
  simp only [validateMin, Moment.isValid, Bool.not_true, Bool.or_self, Bool.false_eq_true,
    if_false, isSameOrAfter_second, makeDate]
  omega

theorem validateMax_endOf_day (D t dm off : Int) (h0 : 0 ≤ t) (h1 : t < 86400000) :
    validateMax (some (Moment.mk (makeDate D t) off))
      (some ((Moment.mk dm off).endOf TimeUnit.day)) = true ↔ D ≤ ESDate.day dm := by
  rw [Moment.endOf_day]
  simp only [validateMax, Moment.isValid, Bool.not_true, Bool.or_self, Bool.false_eq_true,
    if_false, isSameOrBefore_second, makeDate]
  omega

/-- The candidate moment of the day loop: the date asked for, in the grid's
zone, at the time of day the clock shows. -/
theorem buildDay_candidate (env : Env) (sc : Scope) (year month now i : Int)
    (h0 : 0 ≤ month) (h1 : month ≤ 11) :
    ∃ t, (0 ≤ t ∧ t < 86400000) ∧
      (match getTimezone env sc with
        | some z => (Moment.ofInstant env.localOffset now).tz z
        | none => Moment.ofInstant env.localOffset now).set
          ⟨some (some year), some (some month), some (some i), none, none, none⟩ =
        Moment.mk (makeDate (makeDay year month i) t) (gridOffset env sc) := by
  unfold gridOffset
  cases getTimezone env sc with
  | none =>
    exact ⟨_, timeWithinDay_range _, Moment.set_date year month i _ _ h0 h1⟩
  | some z =>
    exact ⟨_, timeWithinDay_range _, Moment.set_date year month i _ _ h0 h1⟩

theorem calendarLt_makeDay_left (year month i n : Int) (h0 : 0 ≤ month) (h1 : month ≤ 11)
    (h2 : 1 ≤ i) (h3 : i ≤ ESDate.daysInMonth year month) :
    calendarLt (year, month, i) (yearFromDay n, monthFromDay n, dateFromDay n) ↔
      makeDay year month i < n := by
  have hf := fields_makeDay year month i h0 h1 h2 h3
  have := calendarLt_iff (makeDay year month i) n
  rw [hf.1, hf.2.1, hf.2.2] at this
  exact this

theorem calendarLt_makeDay_right (year month i n : Int) (h0 : 0 ≤ month) (h1 : month ≤ 11)
    (h2 : 1 ≤ i) (h3 : i ≤ ESDate.daysInMonth year month) :
    calendarLt (yearFromDay n, monthFromDay n, dateFromDay n) (year, month, i) ↔
      n < makeDay year month i := by
  have hf := fields_makeDay year month i h0 h1 h2 h3
  have := calendarLt_iff n (makeDay year month i)
  rw [hf.1, hf.2.1, hf.2.2] at this
  exact this

/-- The `disabled` flag of the cell for day `i`, when the bounds are in the
grid's zone: set exactly when the date is before the lower bound's date or
after the upper bound's date. -/
theorem buildDay_disabled (env : Env) (sc : Scope) (year month now i : Int)
    (h0 : 0 ≤ month) (h1 : month ≤ 11) (h2 : 1 ≤ i) (h3 : i ≤ ESDate.daysInMonth year month)
    (hmin : ∀ m, sc.minDate = some m → m.utcOffset = some (gridOffset env sc))
    (hmax : ∀ m, sc.maxDate = some m → m.utcOffset = some (gridOffset env sc)) :
    (buildDay env sc (getTimezone env sc) year month now i).disabled = true ↔
      ((∃ m cd, sc.minDate = some m ∧ m.calendarDate = some cd ∧
          calendarLt (year, month, i) cd) ∨
        (∃ m cd, sc.maxDate = some m ∧ m.calendarDate = some cd ∧
          calendarLt cd (year, month, i))) := by
  obtain ⟨t, ht, hc⟩ := buildDay_candidate env sc year month now i h0 h1
  simp only [buildDay, hc, getMinDate, getMaxDate, Moment.clone, Bool.or_eq_true,
    Bool.not_eq_true', Bool.not_eq_true]
  have hA : validateMax (some (Moment.mk (makeDate (makeDay year month i) t) (gridOffset env sc)))
      (match (match sc.maxDate with | some m => some m | none => none) with
        | some m => some (m.endOf TimeUnit.day)
        | none => none) = false ↔
      ∃ m cd, sc.maxDate = some m ∧ m.calendarDate = some cd ∧
          calendarLt cd (year, month, i) := by
    cases hx : sc.maxDate with
    | none => simp [validateMax]
    | some m =>
      have ho := hmax m hx
      cases m with
      | invalid => simp [Moment.utcOffset] at ho
      | mk dm om =>
        simp only [Moment.utcOffset, Option.some.injEq] at ho
        subst ho
        have hv := validateMax_endOf_day (makeDay year month i) t dm (gridOffset env sc) ht.1 ht.2
        have hl := calendarLt_makeDay_right year month i (ESDate.day dm) h0 h1 h2 h3
        simp only [Option.some.injEq, Moment.calendarDate, exists_and_left, exists_eq_left',
          yearFromTime, monthFromTime, dateFromTime, hl]
        rw [← Bool.not_eq_true, hv]
        omega
  have hB : validateMin (some (Moment.mk (makeDate (makeDay year month i) t) (gridOffset env sc)))
      (match (match sc.minDate with | some m => some m | none => none) with
        | some m => some (m.startOf TimeUnit.day)
        | none => none) = false ↔
      ∃ m cd, sc.minDate = some m ∧ m.calendarDate = some cd ∧
          calendarLt (year, month, i) cd := by
    cases hx : sc.minDate with
    | none => simp [validateMin]
    | some m =>
      have ho := hmin m hx
      cases m with
      | invalid => simp [Moment.utcOffset] at ho
      | mk dm om =>
        simp only [Moment.utcOffset, Option.some.injEq] at ho
        subst ho
        have hv := validateMin_startOf_day (makeDay year month i) t dm (gridOffset env sc)
          ht.1 ht.2
        have hl := calendarLt_makeDay_left year month i (ESDate.day dm) h0 h1 h2 h3
        simp only [Option.some.injEq, Moment.calendarDate, exists_and_left, exists_eq_left',
          yearFromTime, monthFromTime, dateFromTime, hl]
        rw [← Bool.not_eq_true, hv]
        omega
  rw [hA, hB]
  exact Or.comm

theorem buildMonth_days_eq (env : Env) (clock : Int → Int) (sc : Scope) (year month : Int)
    (h0 : 0 ≤ month) (h1 : month ≤ 11) (hy0 : -271820 ≤ year) (hy1 : year ≤ 275759)
    (ho0 : -960 ≤ env.localOffset) (ho1 : env.localOffset ≤ 960) :
    (buildMonth env clock sc year month).days =
      (List.range (ESDate.daysInMonth year month).toNat).map
        (fun (j : Nat) => buildDay env sc (getTimezone env sc) year month
          (clock ((j : Int) + 1)) ((j : Int) + 1)) := by
  have hN := daysInMonth_range year month h0 h1
  have hf := Moment.fields_makeDate year month 1 0 h0 h1 (le_refl 1) (by linarith [hN.1])
    (le_refl 0) (by norm_num)
  have hd : (Moment.ofYearMonth env.localOffset year month).daysInMonth =
      some (ESDate.daysInMonth year month) := by
    simp only [Moment.ofYearMonth_eq env.localOffset year month h0 h1 hy0 hy1 ho0 ho1,
      Moment.daysInMonth, hf.1, hf.2.1, daysInMonthOf_eq year month h0 h1]
  simp only [buildMonth, hd]

/-- C3, as the code has it: for a year from -271820 to 275759 (the years that
lie wholly inside the range of `Date`), a month in `0..11`, a browser offset of
at most 16 hours, and bounds that, when present, are valid and in the grid's
zone (a zone of fixed offset), `buildMonth` makes one cell per day `1..N` of the
month in increasing
order, `N` the length of the month, and a cell is disabled exactly when its
date is earlier than the lower bound's calendar date or later than the upper
bound's, whatever instants the clock shows while the cells are built. -/
theorem buildMonth_days (env : Env) (clock : Int → Int) (sc : Scope) (year month : Int)
    (h0 : 0 ≤ month) (h1 : month ≤ 11) (hy0 : -271820 ≤ year) (hy1 : year ≤ 275759)
    (ho0 : -960 ≤ env.localOffset) (ho1 : env.localOffset ≤ 960)
    (hmin : ∀ m, sc.minDate = some m → m.utcOffset = some (gridOffset env sc))
    (hmax : ∀ m, sc.maxDate = some m → m.utcOffset = some (gridOffset env sc)) :
    (buildMonth env clock sc year month).days.map DayCell.number =
        (List.range (ESDate.daysInMonth year month).toNat).map (fun (j : Nat) => (j : Int) + 1) ∧
      ∀ cell ∈ (buildMonth env clock sc year month).days,
        (cell.disabled = true ↔
          ((∃ m cd, sc.minDate = some m ∧ m.calendarDate = some cd ∧
              calendarLt (year, month, cell.number) cd) ∨
            (∃ m cd, sc.maxDate = some m ∧ m.calendarDate = some cd ∧
              calendarLt cd (year, month, cell.number)))) := by
  rw [buildMonth_days_eq env clock sc year month h0 h1 hy0 hy1 ho0 ho1]
  constructor
  · rw [List.map_map]
    rfl
  · intro cell hcell
    obtain ⟨j, hj, rfl⟩ := List.mem_map.mp hcell
    have hj' : j < (ESDate.daysInMonth year month).toNat := List.mem_range.mp hj
    have hi : ((j : Int) + 1) ≤ ESDate.daysInMonth year month := by omega
    have hnum : (buildDay env sc (getTimezone env sc) year month (clock ((j : Int) + 1))
        ((j : Int) + 1)).number = (j : Int) + 1 := rfl
    rw [hnum]
    exact buildDay_disabled env sc year month _ _ h0 h1 (by omega) hi hmin hmax

/-- C3 for January 2024 in a zone five hours west of Greenwich, with the lower
bound on 10 January and the upper bound on 20 January: days 1-9 and 21-31 are
disabled, days 10-20 are enabled. -/
theorem buildMonth_days_witness :
    ((buildMonth ⟨60, some ⟨-300⟩, 1, defaultFormat⟩ (fun i => 1718000000000 + 7000 * i)
        ⟨none, none, some (Moment.mk 1704875400000 (-300)), some (Moment.mk 1705770000000 (-300)),
          none, none, none, [], [], 0, 0, "", 0, 0, 0, 0⟩ 2024 0).days.map DayCell.number =
        (List.range (ESDate.daysInMonth 2024 0).toNat).map (fun (j : Nat) => (j : Int) + 1) ∧
      ∀ cell ∈ (buildMonth ⟨60, some ⟨-300⟩, 1, defaultFormat⟩
          (fun i => 1718000000000 + 7000 * i)
          ⟨none, none, some (Moment.mk 1704875400000 (-300)),
            some (Moment.mk 1705770000000 (-300)),
            none, none, none, [], [], 0, 0, "", 0, 0, 0, 0⟩ 2024 0).days,
        (cell.disabled = true ↔
          ((∃ m cd, some (Moment.mk 1704875400000 (-300)) = some m ∧
              m.calendarDate = some cd ∧ calendarLt (2024, 0, cell.number) cd) ∨
            (∃ m cd, some (Moment.mk 1705770000000 (-300)) = some m ∧
              m.calendarDate = some cd ∧ calendarLt cd (2024, 0, cell.number))))) ∧
    (Moment.mk 1704875400000 (-300)).calendarDate = some (2024, 0, 10) ∧
    (Moment.mk 1705770000000 (-300)).calendarDate = some (2024, 0, 20) ∧
    (buildMonth ⟨60, some ⟨-300⟩, 1, defaultFormat⟩ (fun i => 1718000000000 + 7000 * i)
        ⟨none, none, some (Moment.mk 1704875400000 (-300)), some (Moment.mk 1705770000000 (-300)),
          none, none, none, [], [], 0, 0, "", 0, 0, 0, 0⟩ 2024 0).days.map
        (fun c => (c.number, c.disabled)) =
      [(1, true), (2, true), (3, true), (4, true), (5, true), (6, true), (7, true), (8, true),
        (9, true), (10, false), (11, false), (12, false), (13, false), (14, false), (15, false),
        (16, false), (17, false), (18, false), (19, false), (20, false), (21, true), (22, true),
        (23, true), (24, true), (25, true), (26, true), (27, true), (28, true), (29, true),
        (30, true), (31, true)] :=
  ⟨buildMonth_days ⟨60, some ⟨-300⟩, 1, defaultFormat⟩ (fun i => 1718000000000 + 7000 * i)
      ⟨none, none, some (Moment.mk 1704875400000 (-300)), some (Moment.mk 1705770000000 (-300)),
        none, none, none, [], [], 0, 0, "", 0, 0, 0, 0⟩ 2024 0 (by decide) (by decide)
      (by decide) (by decide) (by decide) (by decide)
      (fun m h => by cases h; rfl) (fun m h => by cases h; rfl),
    by decide, by decide, by decide⟩

/-- C3 as the spec has it fails for a year outside the range of `Date`: for
January of the year 300000, a month of 31 days, `buildMonth` makes no cell (the
moment it starts from is invalid and its `daysInMonth()` is `NaN`); October
275760, the first month that starts after the last instant of `Date`, is the
same. -/
theorem buildMonth_days_counterexample :
    ESDate.daysInMonth 300000 0 = 31 ∧
    Moment.ofYearMonth plainEnv.localOffset 300000 0 = Moment.invalid ∧
    (buildMonth plainEnv (fun i => 1718000000000 + 7000 * i) emptyScope 300000 0).days = [] ∧
    (buildMonth plainEnv (fun i => 1718000000000 + 7000 * i) emptyScope 300000 0).days.map
        DayCell.number ≠
      (List.range (ESDate.daysInMonth 300000 0).toNat).map (fun (j : Nat) => (j : Int) + 1) ∧
    (buildMonth plainEnv (fun i => 1718000000000 + 7000 * i) emptyScope 275760 9).days = [] := by
  decide

end DatePicker

/-! ## The parsers and formatters -/

namespace ESDate

theorem clock_of_timeWithinDay (x : Int) :
    hourFromTime x = timeWithinDay x / 3600000 ∧
    minFromTime x = (timeWithinDay x / 60000) % 60 ∧
    secFromTime x = (timeWithinDay x / 1000) % 60 ∧
    msFromTime x = timeWithinDay x % 1000 := by
  unfold hourFromTime minFromTime secFromTime msFromTime timeWithinDay
  omega

theorem clock_range (x : Int) :
    (0 ≤ hourFromTime x ∧ hourFromTime x ≤ 23) ∧ (0 ≤ minFromTime x ∧ minFromTime x ≤ 59) ∧
    (0 ≤ secFromTime x ∧ secFromTime x ≤ 59) ∧ (0 ≤ msFromTime x ∧ msFromTime x ≤ 999) := by
  unfold hourFromTime minFromTime secFromTime msFromTime
  omega

theorem makeTime_range (h mi s ms : Int) (hh : 0 ≤ h ∧ h ≤ 23) (hm : 0 ≤ mi ∧ mi ≤ 59)
    (hs : 0 ≤ s ∧ s ≤ 59) (hms : 0 ≤ ms ∧ ms ≤ 999) :
    0 ≤ makeTime h mi s ms ∧ makeTime h mi s ms < 86400000 := by
  unfold makeTime
  omega

theorem clock_makeDate (D h mi s ms : Int) (hh : 0 ≤ h ∧ h ≤ 23) (hm : 0 ≤ mi ∧ mi ≤ 59)
    (hs : 0 ≤ s ∧ s ≤ 59) (hms : 0 ≤ ms ∧ ms ≤ 999) :
    day (makeDate D (makeTime h mi s ms)) = D ∧
    hourFromTime (makeDate D (makeTime h mi s ms)) = h ∧
    minFromTime (makeDate D (makeTime h mi s ms)) = mi ∧
    secFromTime (makeDate D (makeTime h mi s ms)) = s ∧
    msFromTime (makeDate D (makeTime h mi s ms)) = ms := by
  unfold day hourFromTime minFromTime secFromTime msFromTime makeDate makeTime
  omega

end ESDate

namespace Moment

open ESDate

/-- Setting hour, minute and second on a valid moment keeps its day and its
milliseconds. -/
theorem set_time (h mi s d off : Int) (hh : 0 ≤ h ∧ h ≤ 23) (hm : 0 ≤ mi ∧ mi ≤ 59) :
    set ⟨none, none, none, some (some h), some (some mi), some (some s)⟩ (mk d off) =
      mk (makeDate (ESDate.day d) (makeTime h mi s (msFromTime d))) off := by
  have r := clock_range d
  have c1 := clock_makeDate (ESDate.day d) h (minFromTime d) (secFromTime d) (msFromTime d)
    hh r.2.1 r.2.2.1 r.2.2.2
  have c2 := clock_makeDate (ESDate.day d) h mi (secFromTime d) (msFromTime d)
    hh hm r.2.2.1 r.2.2.2
  simp only [set, applyUnit, setHours, setMinutes, setSeconds, c1.1, c1.2.1, c1.2.2.2.1,
    c1.2.2.2.2, c2.1, c2.2.1, c2.2.2.1, c2.2.2.2.2]

/-- After setting the date fields of a valid moment to the date of another
valid moment, it shows that date and its own time of day. -/
theorem set_date_of (p op d off : Int) :
    (set ⟨some (mk p op).year, some (mk p op).month, some (mk p op).date, none, none, none⟩
        (mk d off)).calendarDate = (mk p op).calendarDate ∧
    (set ⟨some (mk p op).year, some (mk p op).month, some (mk p op).date, none, none, none⟩
        (mk d off)).clockTime = (mk d off).clockTime := by
  have hr : 0 ≤ monthFromTime p ∧ monthFromTime p ≤ 11 := monthFromDay_range (ESDate.day p)
  have hd : 1 ≤ dateFromTime p ∧ dateFromTime p ≤ ESDate.daysInMonth (yearFromTime p)
      (monthFromTime p) := dateFromDay_le (ESDate.day p)
  have ht := timeWithinDay_range d
  have hf := fields_makeDate (yearFromTime p) (monthFromTime p) (dateFromTime p)
    (timeWithinDay d) hr.1 hr.2 hd.1 hd.2 ht.1 ht.2
  simp only [year, month, date, set_date _ _ _ _ _ hr.1 hr.2, calendarDate, clockTime, hf.1,
    hf.2.1, hf.2.2.1, true_and]
  have c1 := clock_of_timeWithinDay
    (makeDate (makeDay (yearFromTime p) (monthFromTime p) (dateFromTime p)) (timeWithinDay d))
  have c2 := clock_of_timeWithinDay d
  rw [hf.2.2.2] at c1
  rw [c1.1, c1.2.1, c1.2.2.1, c2.1, c2.2.1, c2.2.2.1]

/-- After setting the time fields of a valid moment to the time of another
valid moment, it shows that time and its own date. -/
theorem set_time_of (p op d off : Int) :
    (set ⟨none, none, none, some (mk p op).hours, some (mk p op).minutes,
        some (mk p op).seconds⟩ (mk d off)).clockTime = (mk p op).clockTime ∧
    (set ⟨none, none, none, some (mk p op).hours, some (mk p op).minutes,
        some (mk p op).seconds⟩ (mk d off)).calendarDate = (mk d off).calendarDate := by
  have r := clock_range p
  have rd := clock_range d
  have c := clock_makeDate (ESDate.day d) (hourFromTime p) (minFromTime p) (secFromTime p)
    (msFromTime d) r.1 r.2.1 r.2.2.1 rd.2.2.2
  simp only [hours, minutes, seconds, set_time _ _ _ _ _ r.1 r.2.1, calendarDate,
    clockTime, yearFromTime, monthFromTime, dateFromTime, c.1, c.2.1, c.2.2.1, c.2.2.2.1,
    and_self]

end Moment

namespace DatePicker

theorem validateMinMax_fields (sc : Scope) (cur : Option Moment) :
    (validateMinMax sc cur).minIsValid = validateMin cur sc.minDate ∧
    (validateMinMax sc cur).maxIsValid = validateMax cur sc.maxDate ∧
    (validateMinMax sc cur).isValid =
      (validateMax cur sc.maxDate && validateMin cur sc.minDate) := by
  have e1 : (if (getMinDate sc).isSome then validateMin cur (getMinDate sc) else true) =
      validateMin cur sc.minDate := by
    cases h : sc.minDate with
    | none => cases cur <;> simp [getMinDate, h, validateMin]
    | some m => simp [getMinDate, h, Moment.clone]
  have e2 : (if (getMaxDate sc).isSome then validateMax cur (getMaxDate sc) else true) =
      validateMax cur sc.maxDate := by
    cases h : sc.maxDate with
    | none => cases cur <;> simp [getMaxDate, h, validateMax]
    | some m => simp [getMaxDate, h, Moment.clone]
  simp only [validateMinMax, e1, e2, and_self]

/-- C4, as the code has it: when the input parses strictly to a valid date that
violates the lower or the upper bound, the parser leaves the working copy as it
was and returns it, sets the `date` flag to true, and sets the `minDate` and
`maxDate` flags to what the two validators say, so that the flag of each
violated bound is false. -/
theorem momentParser_bound_violation (env : Env) (now : Int) (st : Link) (str : String)
    (hp : (Moment.parseStrict env.dateFormat env.localOffset now str).isValid = true)
    (hv : validateMin (some (Moment.parseStrict env.dateFormat env.localOffset now str))
          st.scope.minDate = false ∨
        validateMax (some (Moment.parseStrict env.dateFormat env.localOffset now str))
          st.scope.maxDate = false) :
    (momentParser env now st str).2 = st.localMoment ∧
    (momentParser env now st str).1.localMoment = st.localMoment ∧
    (momentParser env now st str).1.scope = st.scope ∧
    (momentParser env now st str).1.validity.date = true ∧
    (momentParser env now st str).1.validity.minDate =
      validateMin (some (Moment.parseStrict env.dateFormat env.localOffset now str))
        st.scope.minDate ∧
    (momentParser env now st str).1.validity.maxDate =
      validateMax (some (Moment.parseStrict env.dateFormat env.localOffset now str))
        st.scope.maxDate := by
  have hf := validateMinMax_fields st.scope
    (some (Moment.parseStrict env.dateFormat env.localOffset now str))
  have hi : (validateMinMax st.scope
      (some (Moment.parseStrict env.dateFormat env.localOffset now str))).isValid = false := by
    rw [hf.2.2]
    rcases hv with h | h <;> simp [h]
  simp only [momentParser, updateValidity, hp, hi, Bool.and_false, Bool.false_eq_true, if_false,
    Bool.or_true, hf.1, hf.2.1, and_self]

/-- C4 as the spec has it fails: with the upper bound on 20 January 2024 and the
working copy on 5 January, the input `1/25/2024` parses to 25 January, and the
value the parser returns is still 5 January. -/
theorem momentParser_bound_violation_counterexample :
    (Moment.parseStrict plainEnv.dateFormat plainEnv.localOffset 0 "1/25/2024").calendarDate =
      some (2024, 0, 25) ∧
    validateMax (some (Moment.parseStrict plainEnv.dateFormat plainEnv.localOffset 0 "1/25/2024"))
      (some (Moment.mk 1705708800000 0)) = false ∧
    (momentParser plainEnv 0
      ⟨{ emptyScope with maxDate := some (Moment.mk 1705708800000 0) },
        Moment.mk 1704412800000 0, ⟨true, true, true⟩⟩ "1/25/2024").2.calendarDate =
      some (2024, 0, 5) ∧
    (momentParser plainEnv 0
      ⟨{ emptyScope with maxDate := some (Moment.mk 1705708800000 0) },
        Moment.mk 1704412800000 0, ⟨true, true, true⟩⟩ "1/25/2024").2.calendarDate ≠
      (Moment.parseStrict plainEnv.dateFormat plainEnv.localOffset 0 "1/25/2024").calendarDate := by
  decide

/-- C4 at the input of the counterexample: the working copy stays on 5 January
2024, `date` is true and `maxDate` is false. -/
theorem momentParser_bound_violation_witness :
    (momentParser plainEnv 0
      ⟨{ emptyScope with maxDate := some (Moment.mk 1705708800000 0) },
        Moment.mk 1704412800000 0, ⟨false, false, true⟩⟩ "1/25/2024").2 =
      Moment.mk 1704412800000 0 ∧
    (momentParser plainEnv 0
      ⟨{ emptyScope with maxDate := some (Moment.mk 1705708800000 0) },
        Moment.mk 1704412800000 0, ⟨false, false, true⟩⟩ "1/25/2024").1.validity =
      ⟨true, true, false⟩ :=
  ⟨(momentParser_bound_violation plainEnv 0
      ⟨{ emptyScope with maxDate := some (Moment.mk 1705708800000 0) },
        Moment.mk 1704412800000 0, ⟨false, false, true⟩⟩ "1/25/2024"
      (by decide) (Or.inr (by decide))).1, by decide⟩

/-- C5: when a non-empty input does not parse strictly under the configured
format, the parser returns the working copy it had, leaves it and the scope
unchanged, and sets the `date` flag to false. -/
theorem momentParser_parse_failure (env : Env) (now : Int) (st : Link) (str : String)
    (hne : str ≠ "")
    (hp : (Moment.parseStrict env.dateFormat env.localOffset now str).isValid = false) :
    (momentParser env now st str).2 = st.localMoment ∧
    (momentParser env now st str).1.localMoment = st.localMoment ∧
    (momentParser env now st str).1.scope = st.scope ∧
    (momentParser env now st str).1.validity.date = false := by
  have hs : (str == "") = false := by simpa using hne
  simp only [momentParser, updateValidity, hp, hs, Bool.false_and, Bool.false_eq_true, if_false,
    Bool.or_self, and_self]

/-- C5 at scenario A: `2/30/2020` under `M/D/YYYY` does not parse (February 2020
has 29 days), the working copy is returned as it was and `date` becomes false. -/
theorem momentParser_parse_failure_witness :
    (Moment.parseStrict defaultFormat 0 0 "2/30/2020").isValid = false ∧
    (Moment.parseStrict defaultFormat 0 0 "2/29/2020").isValid = true ∧
    (momentParser plainEnv 0 ⟨emptyScope, Moment.mk 1704412800000 0, ⟨true, true, true⟩⟩
      "2/30/2020").2 = Moment.mk 1704412800000 0 ∧
    (momentParser plainEnv 0 ⟨emptyScope, Moment.mk 1704412800000 0, ⟨true, true, true⟩⟩
      "2/30/2020").1.localMoment = Moment.mk 1704412800000 0 ∧
    (momentParser plainEnv 0 ⟨emptyScope, Moment.mk 1704412800000 0, ⟨true, true, true⟩⟩
      "2/30/2020").1.scope = emptyScope ∧
    (momentParser plainEnv 0 ⟨emptyScope, Moment.mk 1704412800000 0, ⟨true, true, true⟩⟩
      "2/30/2020").1.validity.date = false :=
  ⟨by decide, by decide,
    momentParser_parse_failure plainEnv 0
      ⟨emptyScope, Moment.mk 1704412800000 0, ⟨true, true, true⟩⟩ "2/30/2020"
      (by decide) (by decide)⟩

end DatePicker

namespace TimePicker

/-- For a working copy that is a valid moment, in the model's zones of fixed
offset, and an input that parses and is accepted: the date picker's parser
leaves the working copy showing the parsed year, month and day and the hour,
minute and second it had before, and the time picker's parser leaves it showing
the parsed hour, minute and second and the year, month and day it had before. -/
theorem parsers_keep_other_fields
    (envD : DatePicker.Env) (nowD : Int) (stD : DatePicker.Link) (strD : String)
    (envT : Env) (nowT : Int) (stT : Link) (strT : String)
    (hwD : stD.localMoment.isValid = true)
    (hpD : (Moment.parseStrict envD.dateFormat envD.localOffset nowD strD).isValid = true)
    (haD : (DatePicker.validateMinMax stD.scope
      (some (Moment.parseStrict envD.dateFormat envD.localOffset nowD strD))).isValid = true)
    (hwT : stT.localMoment.isValid = true)
    (hpT : (Moment.parseStrict (getDateFormat envT) envT.localOffset nowT strT).isValid = true) :
    ((DatePicker.momentParser envD nowD stD strD).1.localMoment.calendarDate =
        (Moment.parseStrict envD.dateFormat envD.localOffset nowD strD).calendarDate ∧
      (DatePicker.momentParser envD nowD stD strD).1.localMoment.clockTime =
        stD.localMoment.clockTime ∧
      (DatePicker.momentParser envD nowD stD strD).2 =
        (DatePicker.momentParser envD nowD stD strD).1.localMoment) ∧
    ((timeStringParser envT nowT stT strT).1.localMoment.clockTime =
        (Moment.parseStrict (getDateFormat envT) envT.localOffset nowT strT).clockTime ∧
      (timeStringParser envT nowT stT strT).1.localMoment.calendarDate =
        stT.localMoment.calendarDate ∧
      (timeStringParser envT nowT stT strT).2 =
        (timeStringParser envT nowT stT strT).1.localMoment) := by
  constructor
  · cases hl : stD.localMoment with
    | invalid => rw [hl] at hwD; simp [Moment.isValid] at hwD
    | mk d off =>
      cases hq : Moment.parseStrict envD.dateFormat envD.localOffset nowD strD with
      | invalid => rw [hq] at hpD; simp [Moment.isValid] at hpD
      | mk p op =>
        rw [hq] at haD
        have h := Moment.set_date_of p op d off
        simp only [DatePicker.momentParser, DatePicker.updateValidity, hq, haD, Moment.isValid,
          Bool.and_self, if_true, hl, Moment.clone, h.1, h.2, and_self]
  · cases hl : stT.localMoment with
    | invalid => rw [hl] at hwT; simp [Moment.isValid] at hwT
    | mk d off =>
      cases hq : Moment.parseStrict (getDateFormat envT) envT.localOffset nowT strT with
      | invalid => rw [hq] at hpT; simp [Moment.isValid] at hpT
      | mk p op =>
        have h := Moment.set_time_of p op d off
        simp only [timeStringParser, hq, Moment.isValid, if_true, hl, Moment.clone, h.1, h.2,
          and_self]

/-- The two parsers on a working copy showing 5 January 2024, 14:45:30, on
UTC: after the date `1/25/2024` it shows 25 January 2024, 14:45:30; after the
time `3:30 pm` it shows 5 January 2024, 15:30:00. -/
theorem parsers_keep_other_fields_witness :
    (((DatePicker.momentParser DatePicker.plainEnv 0
          ⟨DatePicker.emptyScope, Moment.mk 1704465930000 0, ⟨true, true, true⟩⟩
          "1/25/2024").1.localMoment.calendarDate =
        (Moment.parseStrict DatePicker.plainEnv.dateFormat DatePicker.plainEnv.localOffset 0
          "1/25/2024").calendarDate ∧
      (DatePicker.momentParser DatePicker.plainEnv 0
          ⟨DatePicker.emptyScope, Moment.mk 1704465930000 0, ⟨true, true, true⟩⟩
          "1/25/2024").1.localMoment.clockTime = (Moment.mk 1704465930000 0).clockTime ∧
      (DatePicker.momentParser DatePicker.plainEnv 0
          ⟨DatePicker.emptyScope, Moment.mk 1704465930000 0, ⟨true, true, true⟩⟩
          "1/25/2024").2 =
        (DatePicker.momentParser DatePicker.plainEnv 0
          ⟨DatePicker.emptyScope, Moment.mk 1704465930000 0, ⟨true, true, true⟩⟩
          "1/25/2024").1.localMoment) ∧
    ((timeStringParser plainEnv 0 ⟨none, none, [], false, Moment.mk 1704465930000 0, true⟩
          "3:30 pm").1.localMoment.clockTime =
        (Moment.parseStrict (getDateFormat plainEnv) plainEnv.localOffset 0
          "3:30 pm").clockTime ∧
      (timeStringParser plainEnv 0 ⟨none, none, [], false, Moment.mk 1704465930000 0, true⟩
          "3:30 pm").1.localMoment.calendarDate = (Moment.mk 1704465930000 0).calendarDate ∧
      (timeStringParser plainEnv 0 ⟨none, none, [], false, Moment.mk 1704465930000 0, true⟩
          "3:30 pm").2 =
        (timeStringParser plainEnv 0 ⟨none, none, [], false, Moment.mk 1704465930000 0, true⟩
          "3:30 pm").1.localMoment)) ∧
    (DatePicker.momentParser DatePicker.plainEnv 0
        ⟨DatePicker.emptyScope, Moment.mk 1704465930000 0, ⟨true, true, true⟩⟩
        "1/25/2024").2 = Moment.mk 1706193930000 0 ∧
    (Moment.mk 1706193930000 0).calendarDate = some (2024, 0, 25) ∧
    (Moment.mk 1706193930000 0).clockTime = some (14, 45, 30) ∧
    (timeStringParser plainEnv 0 ⟨none, none, [], false, Moment.mk 1704465930000 0, true⟩
        "3:30 pm").2 = Moment.mk 1704468600000 0 ∧
    (Moment.mk 1704468600000 0).calendarDate = some (2024, 0, 5) ∧
    (Moment.mk 1704468600000 0).clockTime = some (15, 30, 0) :=
  ⟨parsers_keep_other_fields DatePicker.plainEnv 0
      ⟨DatePicker.emptyScope, Moment.mk 1704465930000 0, ⟨true, true, true⟩⟩ "1/25/2024"
      plainEnv 0 ⟨none, none, [], false, Moment.mk 1704465930000 0, true⟩ "3:30 pm"
      (by decide) (by decide) (by decide) (by decide) (by decide),
    by set_option maxRecDepth 4000 in decide, by decide, by decide,
    by set_option maxRecDepth 4000 in decide, by decide, by decide⟩

end TimePicker

namespace DatePicker

/-- C6 on the code, for a directive linked with a model that is an invalid
moment: `createLocalMoment` clones the model as it is, so the working copy is
an invalid moment. The input `1/25/2024` then parses to 25 January 2024 and is
accepted (there are no bounds), the parser sets `date` to true, and the
setters do nothing on the invalid working copy: the value returned is the
invalid moment and the working copy shows no year, month or day. The
formatter, for its part, merges only under `dateIsValid`. -/
theorem momentParser_invalid_working_copy :
    createLocalMoment plainEnv { emptyScope with model := some Moment.invalid } 0 =
      Moment.invalid ∧
    (Moment.parseStrict plainEnv.dateFormat plainEnv.localOffset 0 "1/25/2024").isValid = true ∧
    (Moment.parseStrict plainEnv.dateFormat plainEnv.localOffset 0 "1/25/2024").calendarDate =
      some (2024, 0, 25) ∧
    (validateMinMax { emptyScope with model := some Moment.invalid }
      (some (Moment.parseStrict plainEnv.dateFormat plainEnv.localOffset 0
        "1/25/2024"))).isValid = true ∧
    (momentParser plainEnv 0
      ⟨{ emptyScope with model := some Moment.invalid },
        createLocalMoment plainEnv { emptyScope with model := some Moment.invalid } 0,
        ⟨true, true, true⟩⟩ "1/25/2024").1.validity = ⟨true, true, true⟩ ∧
    (momentParser plainEnv 0
      ⟨{ emptyScope with model := some Moment.invalid },
        createLocalMoment plainEnv { emptyScope with model := some Moment.invalid } 0,
        ⟨true, true, true⟩⟩ "1/25/2024").2 = Moment.invalid ∧
    (momentParser plainEnv 0
      ⟨{ emptyScope with model := some Moment.invalid },
        createLocalMoment plainEnv { emptyScope with model := some Moment.invalid } 0,
        ⟨true, true, true⟩⟩ "1/25/2024").1.localMoment.calendarDate = none ∧
    (momentParser plainEnv 0
      ⟨{ emptyScope with model := some Moment.invalid },
        createLocalMoment plainEnv { emptyScope with model := some Moment.invalid } 0,
        ⟨true, true, true⟩⟩ "1/25/2024").1.localMoment.calendarDate ≠
      (Moment.parseStrict plainEnv.dateFormat plainEnv.localOffset 0 "1/25/2024").calendarDate := by
  decide

end DatePicker

/-! ## Time zone change -/

namespace DatePicker

theorem deref_append_lt (s : Store) (x : Moment) (r : Nat) (h : r < s.length) :
    deref (s ++ [x]) r = deref s r := by
  simp [deref, List.getD_eq_getElem?_getD, List.getElem?_append_left h]

theorem deref_append_length (s : Store) (x : Moment) : deref (s ++ [x]) s.length = x := by
  simp [deref, List.getD_eq_getElem?_getD]

theorem deref_set_ne (s : Store) (x : Moment) (k r : Nat) (h : k ≠ r) :
    deref (s.set k x) r = deref s r := by
  simp [deref, List.getD_eq_getElem?_getD, List.getElem?_set_ne h]

theorem deref_set_eq (s : Store) (x : Moment) (k : Nat) (h : k < s.length) :
    deref (s.set k x) k = x := by
  simp [deref, List.getD_eq_getElem?_getD, h]

/-- Cloning an object of the store and converting the clone: the objects that
were there are as before, the new one is the conversion of the original. -/
theorem clone_tz (s : Store) (r : Nat) (z : Zone) :
    (tzRef (cloneRef s r).1 (cloneRef s r).2 z).2 = s.length ∧
    (tzRef (cloneRef s r).1 (cloneRef s r).2 z).1.length = s.length + 1 ∧
    deref (tzRef (cloneRef s r).1 (cloneRef s r).2 z).1 s.length = (deref s r).tz z ∧
    ∀ k, k < s.length → deref (tzRef (cloneRef s r).1 (cloneRef s r).2 z).1 k = deref s k := by
  refine ⟨rfl, by simp [tzRef, cloneRef], ?_, ?_⟩
  · simp only [tzRef, cloneRef]
    rw [deref_set_eq _ _ _ (by simp), deref_append_length]
  · intro k hk
    simp only [tzRef, cloneRef]
    rw [deref_set_ne _ _ _ _ (by omega), deref_append_lt _ _ _ hk]

end DatePicker

namespace Moment

theorem tz_valueOf (m : Moment) (z : Zone) : (m.tz z).valueOf = m.valueOf := by
  cases m with
  | invalid => rfl
  | mk d off =>
    simp only [tz, valueOf, Option.some.injEq]
    ring

theorem tz_utcOffset (m : Moment) (z : Zone) (h : m.isValid = true) :
    (m.tz z).utcOffset = some z.utcOffset := by
  cases m with
  | invalid => simp [isValid] at h
  | mk d off => rfl

end Moment

namespace DatePicker

/-- C7, as the code has it: `updateMinMaxTimezone(tz)` replaces each present
bound by a new object that denotes the same instant as the old one and carries
the offset of `tz` (so its clock reading is shifted by the difference of the
offsets); no object that existed before the call is written to, and a bound
that is absent stays absent. -/
theorem updateMinMaxTimezone_converts (z : Zone) (s : Store) (b : BoundRefs)
    (hmin : ∀ r, b.minDate = some r → r < s.length)
    (hmax : ∀ r, b.maxDate = some r → r < s.length) :
    (∀ k, k < s.length → deref (updateMinMaxTimezone (some z) s b).1 k = deref s k) ∧
    (∀ r, b.minDate = some r →
      ∃ r', (updateMinMaxTimezone (some z) s b).2.minDate = some r' ∧ s.length ≤ r' ∧
        deref (updateMinMaxTimezone (some z) s b).1 r' = (deref s r).tz z ∧
        (deref (updateMinMaxTimezone (some z) s b).1 r').valueOf = (deref s r).valueOf ∧
        ((deref s r).isValid = true →
          (deref (updateMinMaxTimezone (some z) s b).1 r').utcOffset = some z.utcOffset)) ∧
    (∀ r, b.maxDate = some r →
      ∃ r', (updateMinMaxTimezone (some z) s b).2.maxDate = some r' ∧ s.length ≤ r' ∧
        deref (updateMinMaxTimezone (some z) s b).1 r' = (deref s r).tz z ∧
        (deref (updateMinMaxTimezone (some z) s b).1 r').valueOf = (deref s r).valueOf ∧
        ((deref s r).isValid = true →
          (deref (updateMinMaxTimezone (some z) s b).1 r').utcOffset = some z.utcOffset)) ∧
    (b.minDate = none → (updateMinMaxTimezone (some z) s b).2.minDate = none) ∧
    (b.maxDate = none → (updateMinMaxTimezone (some z) s b).2.maxDate = none) := by
  cases hbmin : b.minDate with
  | none =>
    cases hbmax : b.maxDate with
    | none =>
      simp [updateMinMaxTimezone, convertBound, hbmin, hbmax]
    | some rx =>
      have hx := hmax rx hbmax
      obtain ⟨c1, c2, c3, c4⟩ := clone_tz s rx z
      simp only [updateMinMaxTimezone, convertBound, hbmin, hbmax]
      refine ⟨c4, by simp, ?_, by simp, by simp⟩
      intro r hr
      cases hr
      exact ⟨s.length, by rw [c1], le_refl _, c3, by rw [c3, Moment.tz_valueOf],
        fun hv => by rw [c3]; exact Moment.tz_utcOffset _ _ hv⟩
  | some rn =>
    have hn := hmin rn hbmin
    obtain ⟨c1, c2, c3, c4⟩ := clone_tz s rn z
    cases hbmax : b.maxDate with
    | none =>
      simp only [updateMinMaxTimezone, convertBound, hbmin, hbmax]
      refine ⟨c4, ?_, by simp, by simp, by simp⟩
      intro r hr
      cases hr
      exact ⟨s.length, by rw [c1], le_refl _, c3, by rw [c3, Moment.tz_valueOf],
        fun hv => by rw [c3]; exact Moment.tz_utcOffset _ _ hv⟩
    | some rx =>
      have hx := hmax rx hbmax
      obtain ⟨e1, e2, e3, e4⟩ := clone_tz (tzRef (cloneRef s rn).1 (cloneRef s rn).2 z).1 rx z
      rw [c2] at e1 e3 e4
      rw [c4 rx hx] at e3
      have k1 := e4 s.length (by omega)
      rw [c3] at k1
      simp only [updateMinMaxTimezone, convertBound, hbmin, hbmax]
      refine ⟨?_, ?_, ?_, by simp, by simp⟩
      · intro k hk
        rw [e4 k (by omega), c4 k hk]
      · intro r hr
        cases hr
        exact ⟨s.length, by rw [c1], le_refl _, k1, by rw [k1, Moment.tz_valueOf],
          fun hv => by rw [k1]; exact Moment.tz_utcOffset _ _ hv⟩
      · intro r hr
        cases hr
        exact ⟨s.length + 1, by rw [e1], by omega, e3, by rw [e3, Moment.tz_valueOf],
          fun hv => by rw [e3]; exact Moment.tz_utcOffset _ _ hv⟩

/-- C7 as the spec has it fails: a lower bound reading 10 January 2024,
00:00:00 on UTC, after the timezone changes to one five hours west of
Greenwich, is the same instant and reads 9 January 2024, 19:00:00; the
original object still reads 10 January, 00:00:00. -/
theorem updateMinMaxTimezone_counterexample :
    (updateMinMaxTimezone (some ⟨-300⟩) [Moment.mk 1704844800000 0] ⟨some 0, none⟩).2.minDate =
      some 1 ∧
    (deref [Moment.mk 1704844800000 0] 0).calendarDate = some (2024, 0, 10) ∧
    (deref [Moment.mk 1704844800000 0] 0).clockTime = some (0, 0, 0) ∧
    (deref (updateMinMaxTimezone (some ⟨-300⟩) [Moment.mk 1704844800000 0]
      ⟨some 0, none⟩).1 1).calendarDate = some (2024, 0, 9) ∧
    (deref (updateMinMaxTimezone (some ⟨-300⟩) [Moment.mk 1704844800000 0]
      ⟨some 0, none⟩).1 1).clockTime = some (19, 0, 0) ∧
    (deref (updateMinMaxTimezone (some ⟨-300⟩) [Moment.mk 1704844800000 0]
      ⟨some 0, none⟩).1 1).valueOf = (deref [Moment.mk 1704844800000 0] 0).valueOf ∧
    (deref (updateMinMaxTimezone (some ⟨-300⟩) [Moment.mk 1704844800000 0]
      ⟨some 0, none⟩).1 0) = Moment.mk 1704844800000 0 := by
  decide

/-- C7 on a store with a lower bound and an upper bound, both on UTC. -/
theorem updateMinMaxTimezone_converts_witness :
    (∀ k, k < [Moment.mk 1704844800000 0, Moment.mk 1705708800000 0].length →
      deref (updateMinMaxTimezone (some ⟨-300⟩)
        [Moment.mk 1704844800000 0, Moment.mk 1705708800000 0] ⟨some 0, some 1⟩).1 k =
      deref [Moment.mk 1704844800000 0, Moment.mk 1705708800000 0] k) ∧
    (updateMinMaxTimezone (some ⟨-300⟩)
      [Moment.mk 1704844800000 0, Moment.mk 1705708800000 0] ⟨some 0, some 1⟩) =
      ([Moment.mk 1704844800000 0, Moment.mk 1705708800000 0,
        Moment.mk 1704826800000 (-300), Moment.mk 1705690800000 (-300)], ⟨some 2, some 3⟩) :=
  ⟨(updateMinMaxTimezone_converts ⟨-300⟩
      [Moment.mk 1704844800000 0, Moment.mk 1705708800000 0] ⟨some 0, some 1⟩
      (fun r h => by cases h; decide) (fun r h => by cases h; decide)).1, by decide⟩

end DatePicker

/-! ## Validity flags and the time picker's formatter -/

namespace DatePicker

/-- C8 on the code: a pass of the parser, and a pass of the formatter over a
model value that is present, set all three flags to values that do not depend
on the flags before the pass; a pass of the formatter over an absent model
value returns the empty string before it reaches `updateValidity` and leaves
every flag as it was. -/
theorem momentFormatter_absent_keeps_flags :
    (∀ (env : Env) (st : Link),
      (momentFormatter env st none).1.validity = st.validity ∧
      (momentFormatter env st none).2 = "") ∧
    (momentFormatter plainEnv ⟨emptyScope, Moment.mk 1704412800000 0, ⟨false, false, false⟩⟩
      none).1.validity = ⟨false, false, false⟩ ∧
    (momentFormatter plainEnv ⟨emptyScope, Moment.mk 1704412800000 0, ⟨true, true, true⟩⟩
      none).1.validity = ⟨true, true, true⟩ ∧
    (∀ (env : Env) (now : Int) (sc : Scope) (lm : Moment) (v1 v2 : Validity) (str : String),
      (momentParser env now ⟨sc, lm, v1⟩ str).1.validity =
        (momentParser env now ⟨sc, lm, v2⟩ str).1.validity) ∧
    (∀ (env : Env) (sc : Scope) (lm : Moment) (v1 v2 : Validity) (mm : Moment),
      (momentFormatter env ⟨sc, lm, v1⟩ (some mm)).1.validity =
        (momentFormatter env ⟨sc, lm, v2⟩ (some mm)).1.validity) ∧
    (momentParser plainEnv 0 ⟨emptyScope, Moment.mk 1704412800000 0, ⟨false, false, false⟩⟩
      "").1.validity = ⟨true, true, true⟩ := by
  refine ⟨fun env st => ⟨rfl, rfl⟩, rfl, rfl, ?_, ?_, by decide⟩
  · intro env now sc lm v1 v2 str
    simp only [momentParser, updateValidity]
  · intro env sc lm v1 v2 mm
    simp only [momentFormatter, updateValidity]

end DatePicker

namespace TimePicker

/-- C9 on the code: the time picker's formatter takes over the model's year,
month and day only. With the working copy at 5 January 2024, 10:00:00 and the
model at 31 March 2024, 15:30:00 the working copy becomes 31 March 2024,
10:00:00 and the string returned is `10:00 am`; the model itself formats as
`3:30 pm`. -/
theorem timeMomentFormatter_keeps_old_time :
    (Moment.mk 1704448800000 0).calendarDate = some (2024, 0, 5) ∧
    (Moment.mk 1704448800000 0).clockTime = some (10, 0, 0) ∧
    (Moment.mk 1711899000000 0).calendarDate = some (2024, 2, 31) ∧
    (Moment.mk 1711899000000 0).clockTime = some (15, 30, 0) ∧
    (timeMomentFormatter plainEnv ⟨none, none, [], false, Moment.mk 1704448800000 0, true⟩
      (some (Moment.mk 1711899000000 0))).1.localMoment.calendarDate = some (2024, 2, 31) ∧
    (timeMomentFormatter plainEnv ⟨none, none, [], false, Moment.mk 1704448800000 0, true⟩
      (some (Moment.mk 1711899000000 0))).1.localMoment.clockTime = some (10, 0, 0) ∧
    (timeMomentFormatter plainEnv ⟨none, none, [], false, Moment.mk 1704448800000 0, true⟩
      (some (Moment.mk 1711899000000 0))).2 = "10:00 am" ∧
    (Moment.mk 1711899000000 0).format (getDateFormat plainEnv) = "3:30 pm" := by
  refine ⟨by decide, by decide, by decide, by decide, by decide, by decide, ?_, ?_⟩
  · set_option maxRecDepth 4000 in decide
  · set_option maxRecDepth 4000 in decide

end TimePicker

/-! ## The time slots -/

namespace TimePicker

/-- The number of iterations the minute loop makes from the value `k`. -/
theorem remaining_step (interval k : Int) (hi : 1 ≤ interval) (hk : k < 60) :
    ((59 - k + interval) / interval).toNat =
      ((59 - (k + interval) + interval) / interval).toNat + 1 := by
  have e : 59 - k + interval = (59 - (k + interval) + interval) + 1 * interval := by ring
  rw [e, Int.add_mul_ediv_right _ _ (by omega : interval ≠ 0)]
  have h0 : 0 ≤ (59 - (k + interval) + interval) / interval :=
    Int.ediv_nonneg (by omega) (by omega)
  omega

theorem remaining_done (interval k : Int) (hi : 1 ≤ interval) (hk : 60 ≤ k) :
    ((59 - k + interval) / interval).toNat = 0 := by
  have h : (59 - k + interval) / interval < 1 :=
    Int.ediv_lt_of_lt_mul (by omega) (by omega)
  omega

/-- With enough fuel the minute loop from `k` pushes the slots for
`k, k + interval, ...` below 60. -/
theorem minuteLoop_eq (env : Env) (interval i : Int) (hi : 1 ≤ interval) :
    ∀ (fuel : Nat) (k : Int), ((59 - k + interval) / interval).toNat + 1 ≤ fuel →
      minuteLoop env interval i fuel k =
        some ((List.range ((59 - k + interval) / interval).toNat).map
          (fun (j : Nat) => makeSlot env i (k + (j : Int) * interval))) := by
  intro fuel
  induction fuel with
  | zero => intro k h; omega
  | succ fuel ih =>
    intro k h
    by_cases hk : k < 60
    · have hs := remaining_step interval k hi hk
      have := ih (k + interval) (by omega)
      simp only [minuteLoop, hk, if_true, this, Option.map_some', Option.some.injEq]
      rw [hs, List.range_succ_eq_map, List.map_cons, List.map_map]
      congr 1
      · simp
      · apply List.map_congr_left
        intro j _
        simp only [Function.comp, Nat.succ_eq_add_one, Nat.cast_add, Nat.cast_one]
        congr 1
        ring
    · have hd := remaining_done interval k hi (by omega)
      simp [minuteLoop, hk, hd]

/-- With enough fuel for an hour the hour loop pushes the slots of `n` hours
from `i`, hour after hour. -/
theorem hourLoop_eq (env : Env) (interval : Int) (hi : 1 ≤ interval) (fuel : Nat)
    (hf : slotsPerHour interval + 1 ≤ fuel) :
    ∀ (n : Nat) (i : Int),
      hourLoop env interval fuel n i =
        some (((List.range n).map (fun (h : Nat) =>
          (List.range (slotsPerHour interval)).map
            (fun (j : Nat) => makeSlot env (i + (h : Int)) ((j : Int) * interval)))).flatten) := by
  have hm : ∀ i, minuteLoop env interval i fuel 0 =
      some ((List.range (slotsPerHour interval)).map
        (fun (j : Nat) => makeSlot env i ((j : Int) * interval))) := by
    intro i
    have := minuteLoop_eq env interval i hi fuel 0 (by simpa [slotsPerHour] using hf)
    simpa [slotsPerHour] using this
  intro n
  induction n with
  | zero => intro i; simp [hourLoop]
  | succ n ih =>
    intro i
    simp only [hourLoop, hm, ih, Option.map_some', Option.some.injEq]
    rw [List.range_succ_eq_map, List.map_cons, List.map_map, List.flatten_cons]
    congr 1
    · simp
    · congr 1
      apply List.map_congr_left
      intro h _
      apply List.map_congr_left
      intro j _
      simp only [Function.comp, Nat.succ_eq_add_one, Nat.cast_add, Nat.cast_one]
      congr 1
      ring

theorem slotsPerHour_eq (interval : Int) (hi : 1 ≤ interval) :
    (slotsPerHour interval : Int) = 59 / interval + 1 := by
  have e : (59 + interval) / interval = 59 / interval + 1 := by
    have := Int.add_mul_ediv_right 59 1 (by omega : interval ≠ 0)
    rw [one_mul] at this
    exact this
  have h0 : 0 ≤ 59 / interval := Int.ediv_nonneg (by omega) (by omega)
  unfold slotsPerHour
  rw [e]
  omega

theorem slotsPerHour_le (interval : Int) (hi : 1 ≤ interval) : slotsPerHour interval ≤ 60 := by
  have h := slotsPerHour_eq interval hi
  have h1 : 59 / interval ≤ 59 := Int.ediv_le_self _ (by omega)
  omega

theorem minute_lt_iff (interval : Int) (hi : 1 ≤ interval) (j : Nat) :
    j < slotsPerHour interval ↔ (j : Int) * interval < 60 := by
  have h := slotsPerHour_eq interval hi
  constructor
  · intro hj
    have h1 : (j : Int) ≤ 59 / interval := by omega
    have h2 : 59 / interval * interval ≤ 59 := Int.ediv_mul_le _ (by omega)
    have h3 : (j : Int) * interval ≤ 59 / interval * interval :=
      Int.mul_le_mul_of_nonneg_right h1 (by omega)
    omega
  · intro hj
    have h1 : (j : Int) ≤ 59 / interval := Int.le_ediv_of_mul_le (by omega) (by omega)
    omega

theorem mem_slots_iff (env : Env) (interval : Int) (s : TimeSlot) :
    s ∈ ((List.range 24).map (fun (h : Nat) =>
        (List.range (slotsPerHour interval)).map
          (fun (j : Nat) => makeSlot env (0 + (h : Int)) ((j : Int) * interval)))).flatten ↔
      ∃ h j : Nat, h < 24 ∧ j < slotsPerHour interval ∧
        s = makeSlot env (h : Int) ((j : Int) * interval) := by
  simp only [List.mem_flatten, List.mem_map, List.mem_range, zero_add]
  constructor
  · rintro ⟨l, ⟨h, hh, rfl⟩, hs⟩
    obtain ⟨j, hj, rfl⟩ := List.mem_map.mp hs
    exact ⟨h, j, hh, List.mem_range.mp hj, rfl⟩
  · rintro ⟨h, j, hh, hj, rfl⟩
    exact ⟨_, ⟨h, hh, rfl⟩, List.mem_map.mpr ⟨j, List.mem_range.mpr hj, rfl⟩⟩

/-- C10: for an interval from 1 to 60, `createTimes` ends (61 iterations of the
minute loop per hour are enough room) with `24 * ceil(60 / interval)` slots in
strictly increasing order of hour and minute; the slots are exactly those with
an hour in `0..23` and a minute below 60 that is a multiple of the interval,
counted from 0 in every hour, and each slot's display string is the formatted
time of that hour and minute. -/
theorem createTimes_slots (env : Env) (interval : Int) (fuel : Nat)
    (hint : env.pickerInterval = some interval) (h1 : 1 ≤ interval) (h60 : interval ≤ 60)
    (hf : 61 ≤ fuel) :
    ∃ slots, createTimes env fuel = some slots ∧
      slots.length = 24 * slotsPerHour interval ∧
      List.Pairwise slotLt slots ∧
      (∀ h m : Int, (∃ s ∈ slots, s.hours = h ∧ s.minutes = m) ↔
        (0 ≤ h ∧ h ≤ 23 ∧ 0 ≤ m ∧ m < 60 ∧ interval ∣ m)) ∧
      (∀ s ∈ slots, s = makeSlot env s.hours s.minutes) := by
  have hle := slotsPerHour_le interval h1
  refine ⟨((List.range 24).map (fun (h : Nat) =>
    (List.range (slotsPerHour interval)).map
      (fun (j : Nat) => makeSlot env (0 + (h : Int)) ((j : Int) * interval)))).flatten,
    ?_, ?_, ?_, ?_, ?_⟩
  · simp only [createTimes, hint]
    exact hourLoop_eq env interval h1 fuel (by omega) 24 0
  · rw [List.length_flatten, List.map_map]
    have : (List.length ∘ fun (h : Nat) =>
        (List.range (slotsPerHour interval)).map
          (fun (j : Nat) => makeSlot env (0 + (h : Int)) ((j : Int) * interval))) =
        fun _ => slotsPerHour interval := by
      funext h
      simp
    rw [this, List.map_const', List.sum_const_nat, List.length_range]
  · rw [List.pairwise_flatten]
    constructor
    · intro l hl
      obtain ⟨h, _, rfl⟩ := List.mem_map.mp hl
      rw [List.pairwise_map]
      refine (List.pairwise_lt_range _).imp ?_
      intro a b hab
      right
      refine ⟨rfl, ?_⟩
      show (a : Int) * interval < (b : Int) * interval
      have : (a : Int) < (b : Int) := by exact_mod_cast hab
      exact Int.mul_lt_mul_of_pos_right this (by omega)
    · rw [List.pairwise_map]
      refine (List.pairwise_lt_range _).imp ?_
      intro a b hab x hx y hy
      obtain ⟨j1, _, rfl⟩ := List.mem_map.mp hx
      obtain ⟨j2, _, rfl⟩ := List.mem_map.mp hy
      left
      show (0 : Int) + (a : Int) < 0 + (b : Int)
      omega
  · intro h m
    constructor
    · rintro ⟨s, hs, rfl, rfl⟩
      obtain ⟨h', j, hh, hj, rfl⟩ := (mem_slots_iff env interval s).mp hs
      have hlt := (minute_lt_iff interval h1 j).mp hj
      have hnn : (0 : Int) ≤ (j : Int) * interval :=
        Int.mul_nonneg (Int.ofNat_nonneg j) (by omega)
      refine ⟨?_, ?_, hnn, hlt, Dvd.intro_left _ rfl⟩
      · show (0 : Int) ≤ (h' : Int)
        omega
      · show (h' : Int) ≤ 23
        omega
    · rintro ⟨hh0, hh1, hm0, hm1, q, rfl⟩
      have hq : 0 ≤ q := by
        by_contra hneg
        have : interval * q ≤ interval * (-1) :=
          Int.mul_le_mul_of_nonneg_left (by omega) (by omega)
        omega
      refine ⟨makeSlot env h (interval * q), ?_, rfl, rfl⟩
      rw [mem_slots_iff]
      refine ⟨h.toNat, q.toNat, by omega, ?_, ?_⟩
      · rw [minute_lt_iff interval h1]
        rw [Int.toNat_of_nonneg hq, Int.mul_comm]
        exact hm1
      · rw [Int.toNat_of_nonneg hq, Int.toNat_of_nonneg hh0, Int.mul_comm]
  · intro s hs
    obtain ⟨h', j, _, _, rfl⟩ := (mem_slots_iff env interval s).mp hs
    rfl

/-- C10 at scenario C: interval 30 with the format `h:mm a` gives 48 slots, the
first displayed `12:00 am`, the last `11:30 pm`; and interval 40 gives the
minutes 0 and 40 in every hour. -/
theorem createTimes_slots_witness :
    (∃ slots, createTimes ⟨0, none, none, some 30⟩ 61 = some slots ∧
      slots.length = 24 * slotsPerHour 30 ∧
      List.Pairwise slotLt slots ∧
      (∀ h m : Int, (∃ s ∈ slots, s.hours = h ∧ s.minutes = m) ↔
        (0 ≤ h ∧ h ≤ 23 ∧ 0 ≤ m ∧ m < 60 ∧ (30 : Int) ∣ m)) ∧
      (∀ s ∈ slots, s = makeSlot ⟨0, none, none, some 30⟩ s.hours s.minutes)) ∧
    24 * slotsPerHour 30 = 48 ∧
    (createTimes ⟨0, none, none, some 30⟩ 61).map
        (fun l => (l.length, l.head?, l.getLast?)) =
      some (48, some ⟨"12:00 am", 0, 0⟩, some ⟨"11:30 pm", 23, 30⟩) ∧
    (createTimes ⟨0, none, none, some 40⟩ 61).map
        (fun l => (l.take 4).map (fun s => (s.hours, s.minutes))) =
      some [(0, 0), (0, 40), (1, 0), (1, 40)] :=
  ⟨createTimes_slots ⟨0, none, none, some 30⟩ 30 61 rfl (by decide) (by decide) (by decide),
    by decide, by set_option maxRecDepth 8000 in decide,
    by set_option maxRecDepth 8000 in decide⟩

end TimePicker

/-! ## The filler cells -/

namespace DatePicker

open ESDate

theorem makeDay_sub (y m dt k : Int) : makeDay y m (dt - k) = makeDay y m dt - k := by
  unfold makeDay
  ring

/-- Whenever the directive file is loaded, `firstDayOfWeek` is Monday. -/
theorem firstDayOfWeek_monday (localOffset now : Int) :
    firstDayOfWeek localOffset now = some 1 := by
  simp only [firstDayOfWeek, Moment.ofInstant, Moment.startOfIsoWeek, Moment.weekday,
    yearFromTime, monthFromTime, dateFromTime, makeDay_sub, makeDay_fields, Option.some.injEq]
  rw [day_makeDate _ 0 (le_refl 0) (by norm_num)]
  unfold weekDay
  split <;> omega

/-- For a year inside the range of `Date` and a month in `0..11`, the weekday
`buildMonth` reads, `m.day()`, is the weekday of the first day of that month. -/
theorem ofYearMonth_weekday (localOffset year month : Int) (h0 : 0 ≤ month) (h1 : month ≤ 11)
    (hy0 : -271820 ≤ year) (hy1 : year ≤ 275759)
    (ho0 : -960 ≤ localOffset) (ho1 : localOffset ≤ 960) :
    (Moment.ofYearMonth localOffset year month).weekday =
      some (weekDay (makeDay year month 1)) := by
  simp only [Moment.ofYearMonth_eq localOffset year month h0 h1 hy0 hy1 ho0 ho1, Moment.weekday]
  rw [day_makeDate _ 0 (le_refl 0) (by norm_num)]

theorem weekDay_range (d : Int) : 0 ≤ weekDay d ∧ weekDay d ≤ 6 := by
  unfold weekDay
  omega

theorem getFillerCount_eq (env : Env) (w : Int) (hs0 : 0 ≤ env.firstDayOfWeek)
    (hs1 : env.firstDayOfWeek ≤ 6) (hw0 : 0 ≤ w) (hw1 : w ≤ 6) :
    getFillerCount env (some w) = some ((w - env.firstDayOfWeek) % 7) := by
  simp only [getFillerCount, Option.some.injEq]
  split <;> omega

/-- The filler loop of `buildMonth`: when `m.day()` is the weekday `w`, the
filler cells are `0, 1, ...`, as many as `getFillerCount` returns for `w`. -/
theorem buildMonth_filler (env : Env) (clock : Int → Int) (sc : Scope) (year month w : Int)
    (hs0 : 0 ≤ env.firstDayOfWeek) (hs1 : env.firstDayOfWeek ≤ 6) (hw0 : 0 ≤ w) (hw1 : w ≤ 6)
    (hday : (Moment.ofYearMonth env.localOffset year month).weekday = some w) :
    (buildMonth env clock sc year month).filler =
      (List.range ((w - env.firstDayOfWeek) % 7).toNat).map (fun (k : Nat) => (k : Int)) := by
  simp only [buildMonth, hday, getFillerCount_eq env w hs0 hs1 hw0 hw1]

/-- For a year inside the range of `Date` the filler cells are counted from the
weekday of the first day of the month. -/
theorem buildMonth_filler_in_range (env : Env) (clock : Int → Int) (sc : Scope)
    (year month : Int) (hs0 : 0 ≤ env.firstDayOfWeek) (hs1 : env.firstDayOfWeek ≤ 6)
    (h0 : 0 ≤ month) (h1 : month ≤ 11) (hy0 : -271820 ≤ year) (hy1 : year ≤ 275759)
    (ho0 : -960 ≤ env.localOffset) (ho1 : env.localOffset ≤ 960) :
    (buildMonth env clock sc year month).filler =
      (List.range ((weekDay (makeDay year month 1) - env.firstDayOfWeek) % 7).toNat).map
        (fun (k : Nat) => (k : Int)) :=
  buildMonth_filler env clock sc year month _ hs0 hs1 (weekDay_range _).1 (weekDay_range _).2
    (ofYearMonth_weekday env.localOffset year month h0 h1 hy0 hy1 ho0 ho1)

/-- C11: for a weekday `w` and a week-start day `s`, both in `0..6`,
`getFillerCount` returns `(w - s) mod 7`, a value from 0 to 6; and when `w` is
the weekday `buildMonth` reads off the first day of the month (`m.day()`),
`buildMonth` makes exactly that many filler cells, `0, 1, ...`. -/
theorem getFillerCount_mod (env : Env) (clock : Int → Int) (sc : Scope) (year month w : Int)
    (hs0 : 0 ≤ env.firstDayOfWeek) (hs1 : env.firstDayOfWeek ≤ 6)
    (hw0 : 0 ≤ w) (hw1 : w ≤ 6) :
    getFillerCount env (some w) = some ((w - env.firstDayOfWeek) % 7) ∧
    (0 ≤ (w - env.firstDayOfWeek) % 7 ∧ (w - env.firstDayOfWeek) % 7 ≤ 6) ∧
    ((Moment.ofYearMonth env.localOffset year month).weekday = some w →
      (buildMonth env clock sc year month).filler =
        (List.range ((w - env.firstDayOfWeek) % 7).toNat).map (fun (k : Nat) => (k : Int)) ∧
      ((buildMonth env clock sc year month).filler.length : Int) =
        (w - env.firstDayOfWeek) % 7) := by
  refine ⟨getFillerCount_eq env w hs0 hs1 hw0 hw1, by omega, ?_⟩
  intro hday
  have hf := buildMonth_filler env clock sc year month w hs0 hs1 hw0 hw1 hday
  refine ⟨hf, ?_⟩
  rw [hf, List.length_map, List.length_range]
  omega

/-- C11 at scenario E: weeks start on Monday and 1 May 2024 is a Wednesday, so
the filler count is 2 and the filler cells are 0 and 1; a month that starts on
a Sunday (September 2024) gets 6. -/
theorem getFillerCount_mod_witness :
    (getFillerCount plainEnv (some 3) = some ((3 - plainEnv.firstDayOfWeek) % 7) ∧
      (0 ≤ (3 - plainEnv.firstDayOfWeek) % 7 ∧ (3 - plainEnv.firstDayOfWeek) % 7 ≤ 6) ∧
      ((Moment.ofYearMonth plainEnv.localOffset 2024 4).weekday = some 3 →
        (buildMonth plainEnv (fun i => 1718000000000 + 7000 * i) emptyScope 2024 4).filler =
          (List.range ((3 - plainEnv.firstDayOfWeek) % 7).toNat).map
            (fun (k : Nat) => (k : Int)) ∧
        ((buildMonth plainEnv (fun i => 1718000000000 + 7000 * i) emptyScope 2024 4).filler.length
            : Int) = (3 - plainEnv.firstDayOfWeek) % 7)) ∧
    plainEnv.firstDayOfWeek = 1 ∧
    (Moment.ofYearMonth plainEnv.localOffset 2024 4).weekday = some 3 ∧
    getFillerCount plainEnv (some 3) = some 2 ∧
    (buildMonth plainEnv (fun i => 1718000000000 + 7000 * i) emptyScope 2024 4).filler = [0, 1] ∧
    getFillerCount plainEnv (some 0) = some 6 ∧
    (Moment.ofYearMonth plainEnv.localOffset 2024 8).weekday = some 0 ∧
    (buildMonth plainEnv (fun i => 1718000000000 + 7000 * i) emptyScope 2024 8).filler =
      [0, 1, 2, 3, 4, 5] ∧
    (Moment.ofYearMonth plainEnv.localOffset 300000 0).weekday = none ∧
    (buildMonth plainEnv (fun i => 1718000000000 + 7000 * i) emptyScope 300000 0).filler = [] :=
  ⟨getFillerCount_mod plainEnv (fun i => 1718000000000 + 7000 * i) emptyScope 2024 4 3
      (by decide) (by decide) (by decide) (by decide),
    by decide, by decide, by decide, by decide, by decide, by decide, by decide, by decide,
    by decide⟩

end DatePicker
